import Mathlib

/-!
# MetadataACS: a shallow embedding of `acs.c` and `main.c`

C strings are lists of characters (`CStr`); a `char *` that may be `NULL` is an
`Option CStr`.  A `GList *` of `mdp_item_pair` is a Lean list, `NULL` being the
empty list.  Functions that spawn a process or touch the overlay return the list of
effects they issue, in order.  Memory allocation is assumed to succeed.
-/

namespace MetadataACS

/-! ## C strings and the GLib / libc helpers the program calls -/

/-- A NUL-terminated C string, without its terminator. -/
abbrev CStr := List Char

/-- libc `isspace` in the C locale. -/
def isspace (c : Char) : Bool :=
  c = ' ' || c = '\t' || c = '\n' || c = '\x0b' || c = '\x0c' || c = '\r'

/-- GLib `g_ascii_toupper`: only the ASCII letters a..z change. -/
def g_ascii_toupper (c : Char) : Char :=
  if 97 ≤ c.toNat ∧ c.toNat ≤ 122 then Char.ofNat (c.toNat - 32) else c

/-- The first occurrence of `delim` in a string (libc `strstr`), as the text before
it and the text after it; `none` when `delim` does not occur. -/
def strstr_split (delim : CStr) : CStr → Option (CStr × CStr)
  | [] => none
  | c :: cs =>
    if delim.isPrefixOf (c :: cs) then some ([], (c :: cs).drop delim.length)
    else match strstr_split delim cs with
      | some (a, b) => some (c :: a, b)
      | none => none

/-- The loop of GLib `g_strsplit` for a string that is not empty: the argument is the
value of `max_tokens` before the loop test `--max_tokens && s`; when the count is
used up the remainder of the string is the last token. -/
def g_strsplit_loop (delim : CStr) : Nat → CStr → List CStr
  | 0, remainder => [remainder]
  | 1, remainder => [remainder]
  | n + 2, remainder =>
    match strstr_split delim remainder with
    | none => [remainder]
    | some (piece, rest) => piece :: g_strsplit_loop delim (n + 1) rest

/-- GLib `G_MAXINT`. -/
def G_MAXINT : Nat := 2147483647

/-- GLib `g_strsplit (string, delimiter, max_tokens)` for a non-empty delimiter: the
vector of tokens without its `NULL` terminator.  An empty string gives an empty
vector; `max_tokens < 1` splits completely. -/
def g_strsplit (string delimiter : CStr) (max_tokens : Int) : List CStr :=
  if string = [] then []
  else g_strsplit_loop delimiter
    (if max_tokens < 1 then G_MAXINT else max_tokens.toNat) string

/-- GLib `g_strrstr (haystack, needle)`: the text from the last occurrence of
`needle` on, `none` when there is none. -/
def g_strrstr (haystack needle : CStr) : Option CStr :=
  match haystack with
  | [] => if needle = [] then some [] else none
  | c :: cs =>
    match g_strrstr cs needle with
    | some r => if needle = [] then some (c :: cs) else some r
    | none => if needle.isPrefixOf (c :: cs) then some (c :: cs) else none

/-- The call `sscanf (code_start, "HTTP:%3s", http_code)`: the literal text `HTTP:`
must match, then white space is skipped and at most three characters that are not
white space are stored.  `some field` stands for `hits == 1`. -/
def sscanf_HTTP_3s (s : CStr) : Option CStr :=
  match s with
  | 'H' :: 'T' :: 'T' :: 'P' :: ':' :: rest =>
    let field := ((rest.dropWhile isspace).takeWhile (fun c => !isspace c)).take 3
    if field = [] then none else some field
  | _ => none

/-- The conversion `%d` of printf for a `gint`. -/
def printf_d (i : Int) : CStr :=
  if i < 0 then '-' :: Nat.toDigits 10 i.natAbs else Nat.toDigits 10 i.toNat

/-- A two-digit, zero-padded field of strftime (`%m`, `%d`, `%H`, `%M`, `%S`). -/
def pad2 (n : Nat) : CStr :=
  [Nat.digitChar (n / 10 % 10), Nat.digitChar (n % 10)]

/-- The broken-down time `struct tm` as `gmtime` fills it in (the fields that the
format `%F %T` reads). -/
structure tm where
  tm_sec : Nat
  tm_min : Nat
  tm_hour : Nat
  tm_mday : Nat
  tm_mon : Nat
  tm_year : Nat

/-- The text `strftime (outstr, 200, "%F %T", tmp)` writes: `%F` is `%Y-%m-%d`, `%T` is
`%H:%M:%S`; `tm_year` counts from 1900 and `tm_mon` from 0. -/
def strftime_F_T (t : tm) : CStr :=
  Nat.toDigits 10 (1900 + t.tm_year) ++ '-' :: pad2 (t.tm_mon + 1) ++ '-' :: pad2 t.tm_mday
    ++ ' ' :: pad2 t.tm_hour ++ ':' :: pad2 t.tm_min ++ ':' :: pad2 t.tm_sec

/-! ## metadata_pair.h -/

/-- One name/value pair of metadata (`mdp_item_pair`). -/
structure mdp_item_pair where
  name : CStr
  value : CStr
  deriving DecidableEq, Repr

/-! ## acs.c -/

/-- The `struct acs` behind an `acs_handle`; `acs_init` zeroes it, so every field
starts as `NULL`. -/
structure acs where
  username : Option CStr
  password : Option CStr
  ipname : Option CStr
  source : Option CStr
  enabled : Option CStr
  deriving DecidableEq, Repr

/-- The handle `acs_init` returns: `g_new0 (acs, 1)`. -/
def acs_init : acs := ⟨none, none, none, none, none⟩

/-- One call of `ax_event_key_value_set_add_key_value (set, key, namespace, value,
AX_VALUE_TYPE_STRING, NULL)`: the key, the namespace and the value (`none` is `NULL`). -/
structure key_value where
  key : CStr
  name_space : Option CStr
  value : Option CStr
  deriving DecidableEq, Repr

/-- An effect on the outside world, in the order the program issues them. -/
inductive Effect where
  | spawn_sync (cmd : CStr)
  | spawn_async (cmd : CStr)
  | overlay_set_data (items : List mdp_item_pair) (time : Nat)
      (analytic category : Option CStr)
  | event_free
  | unsubscribe (subscription : Int)
  | subscribe (key_value_set : List key_value)
  deriving DecidableEq, Repr

/-- Whether an effect starts the transport command (network I/O). -/
def Effect.isSpawn : Effect → Bool
  | .spawn_sync _ => true
  | .spawn_async _ => true
  | _ => false

/-- The static `is_initialized` of acs.c: the handle exists, `enabled` compares equal
to "yes", and the four other fields are not `NULL`. -/
def is_initialized (handle : Option acs) : Bool :=
  match handle with
  | none => false
  | some h =>
    if h.enabled = none ∨ h.enabled ≠ some "yes".toList then false
    else if h.username = none then false
    else if h.password = none then false
    else if h.ipname = none then false
    else if h.source = none then false
    else true

/-- The static `check_jSON_response (buffer, error)`: `error` is what the error
location holds on entry; the result is the return value and what the location
holds afterwards. -/
def check_jSON_response (buffer : Option CStr) (error : Option CStr) :
    Bool × Option CStr :=
  let r : Bool × Option CStr :=
    match buffer with
    | none => (false, error)
    | some b =>
      match g_strrstr b "HTTP".toList with
      | none => (false, error)
      | some code_start =>
        match sscanf_HTTP_3s code_start with
        | none => (false, error)
        | some http_code =>
          if http_code = "200".toList then (true, error)
          else if http_code = "000".toList then (false, some "Bad IP:Port".toList)
          else if http_code = "401".toList then (false, some "Unauthorized".toList)
          else if http_code = "400".toList then (false, some "Bad source ID".toList)
          else (false, error)
  if r.2 = none then (r.1, some "Unknown Error".toList) else r

/-- The text printed for one pair in `acs_run`: the format "\"%s\":\"%s\",". -/
def item_string (p : mdp_item_pair) : CStr :=
  '"' :: p.name ++ "\":\"".toList ++ p.value ++ "\",".toList

/-- The boilerplate start of the JSON command in `acs_run`, with the time and
the source filled in; the line continuations of the C literal keep the
indentation of the source inside the text. -/
def jSON_head (outstr source : CStr) : CStr :=
  "\x7b ".toList ++ List.replicate 12 ' ' ++ "\"addExternalDataRequest\": ".toList
    ++ List.replicate 16 ' ' ++ "\x7b \"occurrenceTime\": \"".toList ++ outstr ++ "\",".toList
    ++ List.replicate 18 ' ' ++ "\"source\": \"".toList ++ source ++ "\",".toList
    ++ List.replicate 18 ' ' ++ "\"externalDataType\": ".toList
    ++ List.replicate 18 ' ' ++ "\"PointOfSales\", \"data\": \x7b".toList

/-- The text `acs_run` appends to the head for the items: one `item_string` per pair,
in list order. -/
def jSON_items (metadata_items : List mdp_item_pair) : CStr :=
  (metadata_items.map item_string).flatten

/-- The whole `jSON_string` of `acs_run`. -/
def jSON_string (outstr source : CStr) (metadata_items : List mdp_item_pair) : CStr :=
  jSON_head outstr source ++ jSON_items metadata_items ++ "\x7d\x7d\x7d".toList

/-- The macro `METABASE` of acs_commands.h applied to its four arguments. -/
def METABASE (json ipname username password : CStr) : CStr :=
  "curl --insecure --anyauth -H \"Content-Type: application/json\" --data \x27".toList
    ++ json ++ "\x27 -sw \x27HTTP:%\x7bhttp_code\x7d\x27 --max-time 2 https://".toList
    ++ ipname ++ "/Acs/Api/ExternalDataFacade/AddExternalData  --user \"".toList
    ++ username ++ ':' :: password ++ "\"".toList

/-- What a call of `acs_run` leaves behind. -/
structure acs_result where
  /-- The return value. -/
  ret : Bool
  /-- What the error location holds afterwards (`none` when no location was given). -/
  error : Option (Option CStr)
  /-- The commands spawned. -/
  effects : List Effect
  deriving DecidableEq, Repr

/-- The command line `acs_run` builds for the handle `h`, the formatted time
`outstr` and the items: `METABASE` applied to the JSON text, the host, the user
name and the password. -/
def acs_cmd (h : acs) (outstr : CStr) (metadata_items : List mdp_item_pair) : CStr :=
  METABASE (jSON_string outstr (h.source.getD []) metadata_items)
    (h.ipname.getD []) (h.username.getD []) (h.password.getD [])

/-- The function `acs_run (handle, metadata_items, error)`.  `now` is what
`gmtime (time (NULL))` returns, `transport` the standard output that
`g_spawn_command_line_sync` hands back for a command; `error` is `none` for a `NULL`
location and `some e` for a location that holds `e`. -/
def acs_run (now : Option tm) (transport : CStr → Option CStr) (handle : Option acs)
    (metadata_items : List mdp_item_pair) (error : Option (Option CStr)) : acs_result :=
  if is_initialized handle = false then
    ⟨false, error.map (fun _ => some "Missing config".toList), []⟩
  else
    match now with
    | none => ⟨true, error, []⟩
    | some t =>
      let outstr := strftime_F_T t
      if outstr.length = 0 ∨ 200 ≤ outstr.length then ⟨true, error, []⟩
      else
        let cmd := acs_cmd (handle.getD acs_init) outstr metadata_items
        match error with
        | some e =>
          let r := check_jSON_response (transport cmd) e
          ⟨r.1, some r.2, [Effect.spawn_sync cmd]⟩
        | none => ⟨true, none, [Effect.spawn_async cmd]⟩

/-! ## The event record (axevent) as main.c reads it -/

/-- A `gdouble` of an event, known by the text that the printf conversion `%f`
prints for it; the program does nothing else with a double. -/
structure gdouble where
  printf_f : CStr
  deriving DecidableEq, Repr

/-- A typed value of an event record. -/
inductive AXValue where
  | string (s : CStr)
  | boolean (b : Bool)
  | integer (i : Int)
  | double (d : gdouble)
  deriving DecidableEq, Repr

/-- An `AXEventKeyValueSet` as the program sees it: the four typed getters
`ax_event_key_value_set_get_string`, `..._get_boolean`, `..._get_integer` and
`..._get_double` (with a `NULL` namespace); `none` is the return value `FALSE`. -/
structure AXEventKeyValueSet where
  get_string : CStr → Option CStr
  get_boolean : CStr → Option Bool
  get_integer : CStr → Option Int
  get_double : CStr → Option gdouble

/-- The key/value set that holds the given typed entries: a getter succeeds when
the first entry under the key has the getter's type. -/
def AXEventKeyValueSet.ofList (l : List (CStr × AXValue)) : AXEventKeyValueSet where
  get_string k := match l.lookup k with | some (.string s) => some s | _ => none
  get_boolean k := match l.lookup k with | some (.boolean b) => some b | _ => none
  get_integer k := match l.lookup k with | some (.integer i) => some i | _ => none
  get_double k := match l.lookup k with | some (.double d) => some d | _ => none

/-- An `AXEvent`: `ax_event_get_key_value_set` may return `NULL`. -/
structure AXEvent where
  key_value_set : Option AXEventKeyValueSet

/-! ## main.c -/

/-- Max number of metadata items. -/
def MAX_ITEMS : Nat := 20

/-- The value `build_metadata_items` finds for one item: "TEST" when there is no
key/value set, else the getters in the order string, boolean, integer, double;
`none` is `found_item == FALSE`. -/
def item_value (key_value_set : Option AXEventKeyValueSet) (name : CStr) : Option CStr :=
  match key_value_set with
  | none => some "TEST".toList
  | some s =>
    match s.get_string name with
    | some v => some v
    | none =>
      match s.get_boolean name with
      | some b => some (if b = true then "yes".toList else "no".toList)
      | none =>
        match s.get_integer name with
        | some i => some (printf_d i)
        | none =>
          match s.get_double name with
          | some d => some d.printf_f
          | none => none

/-- The assignment `data_items[i][0] = g_ascii_toupper (data_items[i][0])`. -/
def capitalize (name : CStr) : CStr :=
  match name with
  | [] => []
  | c :: cs => g_ascii_toupper c :: cs

/-- The state of the `for` loop of `build_metadata_items` when it is left. -/
structure loop_state where
  ret : Bool
  content_match : Bool
  metadata_items : List mdp_item_pair
  deriving DecidableEq, Repr

/-- The `for` loop of `build_metadata_items`, from index `i` on: the first argument
is `MAX_ITEMS - i`, the list is `data_items` from index `i` (its end is the `NULL`
terminator). -/
def items_loop (key_value_set : Option AXEventKeyValueSet)
    (filter_key filter_value : Option CStr) :
    Nat → List CStr → Bool → List mdp_item_pair → loop_state
  | 0, _, content_match, metadata_items => ⟨true, content_match, metadata_items⟩
  | _ + 1, [], content_match, metadata_items => ⟨true, content_match, metadata_items⟩
  | n + 1, item :: rest, content_match, metadata_items =>
    if item = [] then ⟨true, content_match, metadata_items⟩
    else
      match item_value key_value_set item with
      | none => ⟨false, content_match, metadata_items⟩
      | some value =>
        let content_match :=
          if filter_key.isSome ∧ filter_value.isSome ∧
              filter_key = some item ∧ filter_value = some value
          then true else content_match
        items_loop key_value_set filter_key filter_value n rest content_match
          (metadata_items ++ [⟨capitalize item, value⟩])

/-- The content-filter part of `build_metadata_items`: the initial `content_match`,
`filter_key` and `filter_value` (`none` is `NULL`).  The filter " " switches
filtering off; any other filter starts with `content_match = FALSE`, and the key
and value are set only when `g_strsplit (par_filter, "=", 2)` yields two pieces. -/
def parse_filter (par_filter : CStr) : Bool × Option CStr × Option CStr :=
  if par_filter ≠ " ".toList then
    match g_strsplit par_filter "=".toList 2 with
    | [k, v] => (false, some k, some v)
    | _ => (false, none, none)
  else (true, none, none)

/-- The static `build_metadata_items (key_value_set, list)` of main.c, with the
globals `par_items` and `par_filter` it reads passed in (both set, as after start-up):
the return value and the list stored in `*list`. -/
def build_metadata_items (par_items par_filter : CStr)
    (key_value_set : Option AXEventKeyValueSet) : Bool × List mdp_item_pair :=
  let data_items := g_strsplit par_items ";".toList MAX_ITEMS
  let filter := parse_filter par_filter
  let s := items_loop key_value_set filter.2.1 filter.2.2 MAX_ITEMS data_items filter.1 []
  if s.ret = false ∨ s.content_match = false then (false, [])
  else (true, s.metadata_items)

/-- The static variables of main.c. -/
structure App where
  event_subscription_id : Int
  par_debug_enabled : Option CStr
  par_analytic : Option CStr
  par_category : Option CStr
  par_items : Option CStr
  par_filter : Option CStr
  acs : Option acs
  cur_metadata_items : List mdp_item_pair
  deriving DecidableEq, Repr

/-- The static `metadata_event_callback (subscription, event, token)`: the new
state and the effects issued.  `none` stands for undefined behaviour: `par_items` or
`par_filter` is `NULL` (a `NULL` vector is indexed), or the key/value set is `NULL`
(the jump to `cleanup` skips the initialisation of `metadata_items`). -/
def metadata_event_callback (now : Option tm) (transport : CStr → Option CStr)
    (st : App) (event : Option AXEvent) : Option (App × List Effect) :=
  match event with
  | none => some (st, [])
  | some ev =>
    match ev.key_value_set, st.par_items, st.par_filter with
    | some key_value_set, some par_items, some par_filter =>
      let r := build_metadata_items par_items par_filter (some key_value_set)
      if r.1 = false then
        some (st, [Effect.event_free])
      else
        let metadata_items := r.2
        let sent := acs_run now transport st.acs metadata_items none
        let st1 : App :=
          if metadata_items ≠ [] then { st with cur_metadata_items := metadata_items }
          else st
        some (st1, sent.effects ++
          [Effect.overlay_set_data metadata_items 3000 st.par_analytic st.par_category,
           Effect.event_free])
    | _, _, _ => none


/-! ## camera.c: the HTTP reply and the parameter callbacks -/

/-- The text printf produces for a format with one `%s` conversion: the first `%s` is
replaced by the argument, a `NULL` argument prints as `(null)` (glibc). -/
def printf_s (fmt : CStr) (arg : Option CStr) : CStr :=
  match fmt with
  | [] => []
  | '%' :: 's' :: rest => arg.getD "(null)".toList ++ rest
  | c :: rest => c :: printf_s rest arg

/-- The two texts `camera_http_sendXMLheader` writes to the reply. -/
def camera_http_sendXMLheader : List CStr :=
  ["Content-Type: text/xml; charset=utf-8; Cache-Control: no-cache\r\n\r\n".toList,
   "<?xml version=\"1.0\"?>\r\n".toList]

/-- A `CAMERA_PARAM_callback`: a function pointer, known by the name of the function. -/
structure CAMERA_PARAM_callback where
  symbol : CStr
  deriving DecidableEq, Repr

/-- The parameter part of the statics of camera.c, with the values the parameter
handler holds: `handler_application_param` (set or `NULL`), `table_application_param`
(`none` is `NULL`; a key maps to a callback pointer, `none` being a `NULL` pointer) and
the stored value of each parameter the handler knows. -/
structure camera_params where
  handler_application_param : Bool
  table_application_param : Option (List (CStr × Option CAMERA_PARAM_callback))
  values : List (CStr × CStr)
  deriving DecidableEq, Repr

/-- GLib `g_hash_table_insert` on a table with string keys: the entry of an equal key
is replaced. -/
def g_hash_table_insert {β : Type} (table : List (CStr × β)) (key : CStr) (value : β) :
    List (CStr × β) :=
  match table with
  | [] => [(key, value)]
  | (k, v) :: rest =>
    if k = key then (k, value) :: rest else (k, v) :: g_hash_table_insert rest key value

/-- The function `camera_param_setCallback (name, theCallback)`: the return value and
the new statics.  Without a handler nothing is registered; a `NULL` table is left alone
by `g_hash_table_insert`. -/
def camera_param_setCallback (c : camera_params) (name : CStr)
    (theCallback : Option CAMERA_PARAM_callback) : Int × camera_params :=
  if c.handler_application_param = false then (0, c)
  else
    (1, { c with table_application_param :=
            c.table_application_param.map (fun t => g_hash_table_insert t name theCallback) })

/-- The function `camera_param_set (param_name, value)`: the return value, the new
statics and the callbacks it invokes with their argument.  `ax_parameter_set` succeeds
for a parameter the handler knows and then stores the value. -/
def camera_param_set (c : camera_params) (param_name value : CStr) :
    Int × camera_params × List (CAMERA_PARAM_callback × CStr) :=
  if c.handler_application_param = false then (0, c, [])
  else if (c.values.lookup param_name).isNone then (0, c, [])
  else
    let c1 := { c with values := g_hash_table_insert c.values param_name value }
    match c.table_application_param with
    | none => (0, c1, [])
    | some table =>
      match (table.lookup param_name).join with
      | some user_callback => (1, c1, [(user_callback, value)])
      | none => (0, c1, [])

/-! ## main.c: the subscription and the parameter callbacks -/

/-- What `ax_event_handler_subscribe` answers for a key/value set: the return value
and what the variable `subscription` holds afterwards (after a failure that is the
indeterminate value the variable had). -/
structure subscribe_result where
  result : Bool
  subscription : Nat
  deriving DecidableEq, Repr

/-- The static `metadata_event_subscribe ()`: the return value and the effects. -/
def metadata_event_subscribe (ax_event_handler_subscribe : List key_value → subscribe_result)
    (st : App) : Int × List Effect :=
  if st.par_analytic = some " ".toList then (0, [])
  else
    let key_value_set : List key_value :=
      [⟨"topic0".toList, some "tnsaxis".toList, some "CameraApplicationPlatform".toList⟩,
       ⟨"topic1".toList, none, st.par_analytic⟩] ++
      (if st.par_category ≠ some [] ∧ st.par_category ≠ some "Uncategorized".toList then
        [⟨"topic2".toList, none, st.par_category⟩]
       else [])
    ((ax_event_handler_subscribe key_value_set).subscription, [Effect.subscribe key_value_set])

/-- The value the `int` variable `event_subscription_id` holds after a `guint` is
assigned to it (32 bits, two's complement; values above `INT_MAX` wrap, as gcc defines the
conversion). -/
def int_of_guint (u : Int) : Int :=
  if u % 4294967296 < 2147483648 then u % 4294967296 else u % 4294967296 - 4294967296

/-- The `guint` that `ax_event_handler_unsubscribe` receives when the `int` variable
`event_subscription_id` is passed to it. -/
def guint_of_int (i : Int) : Int := i % 4294967296

/-- The static `set_analytic (value)`. -/
def set_analytic (ax_event_handler_subscribe : List key_value → subscribe_result)
    (st : App) (value : Option CStr) : App × List Effect :=
  if value ≠ st.par_analytic then
    let st1 : App := { st with par_analytic := value }
    let r := metadata_event_subscribe ax_event_handler_subscribe st1
    ({ st1 with event_subscription_id := int_of_guint r.1 },
      Effect.unsubscribe (guint_of_int st.event_subscription_id) :: r.2)
  else (st, [])

/-- The static `set_category (value)`. -/
def set_category (ax_event_handler_subscribe : List key_value → subscribe_result)
    (st : App) (value : Option CStr) : App × List Effect :=
  if value ≠ st.par_category then
    let st1 : App := { st with par_category := value }
    let r := metadata_event_subscribe ax_event_handler_subscribe st1
    ({ st1 with event_subscription_id := int_of_guint r.1 },
      Effect.unsubscribe (guint_of_int st.event_subscription_id) :: r.2)
  else (st, [])

/-- The function `acs_set_username (handle, username)` of acs.c: without a handle
nothing happens. -/
def acs_set_username (handle : Option acs) (username : Option CStr) : Option acs :=
  handle.map (fun h => { h with username := username })

/-- The function `acs_set_password (handle, password)` of acs.c. -/
def acs_set_password (handle : Option acs) (password : Option CStr) : Option acs :=
  handle.map (fun h => { h with password := password })

/-- The function `acs_set_ipname (handle, ipname)` of acs.c. -/
def acs_set_ipname (handle : Option acs) (ipname : Option CStr) : Option acs :=
  handle.map (fun h => { h with ipname := ipname })

/-- The function `acs_set_source (handle, source)` of acs.c. -/
def acs_set_source (handle : Option acs) (source : Option CStr) : Option acs :=
  handle.map (fun h => { h with source := source })

/-- The function `acs_set_enabled (handle, enabled)` of acs.c. -/
def acs_set_enabled (handle : Option acs) (enabled : Option CStr) : Option acs :=
  handle.map (fun h => { h with enabled := enabled })

/-- The static `set_server_address (value)`: the new state and the effects issued. -/
def set_server_address (st : App) (value : Option CStr) : App × List Effect :=
  ({ st with acs := acs_set_ipname st.acs value }, [])

/-- The static `set_source_id (value)`. -/
def set_source_id (st : App) (value : Option CStr) : App × List Effect :=
  ({ st with acs := acs_set_source st.acs value }, [])

/-- The static `set_username (value)`. -/
def set_username (st : App) (value : Option CStr) : App × List Effect :=
  ({ st with acs := acs_set_username st.acs value }, [])

/-- The static `set_password (value)`. -/
def set_password (st : App) (value : Option CStr) : App × List Effect :=
  ({ st with acs := acs_set_password st.acs value }, [])

/-- The static `set_enabled (value)`. -/
def set_enabled (st : App) (value : Option CStr) : App × List Effect :=
  ({ st with acs := acs_set_enabled st.acs value }, [])

/-- The static `set_items (value)`. -/
def set_items (st : App) (value : Option CStr) : App × List Effect :=
  ({ st with par_items := value }, [])

/-- The static `set_filter (value)`. -/
def set_filter (st : App) (value : Option CStr) : App × List Effect :=
  ({ st with par_filter := value }, [])

/-! ## main.c: the CGIs -/

/-- The function `acs_get_enabled (handle)` of acs.c. -/
def acs_get_enabled (handle : Option acs) : Option CStr := handle.bind (fun h => h.enabled)

/-- The function `acs_get_ipname (handle)` of acs.c. -/
def acs_get_ipname (handle : Option acs) : Option CStr := handle.bind (fun h => h.ipname)

/-- The function `acs_get_source (handle)` of acs.c. -/
def acs_get_source (handle : Option acs) : Option CStr := handle.bind (fun h => h.source)

/-- The function `acs_get_username (handle)` of acs.c. -/
def acs_get_username (handle : Option acs) : Option CStr := handle.bind (fun h => h.username)

/-- The function `acs_get_password (handle)` of acs.c. -/
def acs_get_password (handle : Option acs) : Option CStr := handle.bind (fun h => h.password)

/-- The part of `cgi_test_reporting` after the label `send_xml`: the texts written to
the reply for the given `result` and `error`. -/
def send_xml (result error : Option CStr) : List CStr :=
  camera_http_sendXMLheader ++
    ["<settings>".toList,
     printf_s "<param name=\x27Result\x27 value=\x27%s\x27/>".toList result,
     printf_s "<param name=\x27Error\x27 value=\x27%s\x27/>".toList error,
     "</settings>".toList]

/-- The static `cgi_test_reporting (http, options)`: the texts written to the reply and
the effects.  `none` stands for undefined behaviour: `build_metadata_items` is reached
with `par_items` or `par_filter` being `NULL`. -/
def cgi_test_reporting (now : Option tm) (transport : CStr → Option CStr) (st : App) :
    Option (List CStr × List Effect) :=
  if st.par_analytic = some " ".toList then
    some (send_xml (some "Error".toList) (some "Save Analytic".toList), [])
  else if st.par_category = some " ".toList then
    some (send_xml (some "Error".toList) (some "Save Category".toList), [])
  else if st.par_items = some " ".toList then
    some (send_xml (some "Error".toList) (some "Save Items".toList), [])
  else if acs_get_enabled st.acs ≠ some "yes".toList then
    some (send_xml (some "Error".toList) (some "Enable reporting".toList), [])
  else
    match st.par_items, st.par_filter with
    | some par_items, some par_filter =>
      let r := build_metadata_items par_items par_filter none
      if r.1 = false then some (send_xml (some "Item Error".toList) none, [])
      else
        let sent := acs_run now transport st.acs r.2 (some none)
        if sent.ret = false then
          some (send_xml (some "Failure".toList) sent.error.join, sent.effects)
        else
          some (send_xml (some "Success".toList) (some "NA".toList), sent.effects)
    | _, _ => none

/-- The upper-case hexadecimal digit GLib writes in an escape. -/
def hex_digit (n : Nat) : Char := "0123456789ABCDEF".toList.getD n '0'

/-- The characters `g_uri_escape_string` leaves alone when no reserved character is
allowed: the ASCII letters and digits and `-`, `.`, `_`, `~`. -/
def is_unreserved (c : Char) : Bool :=
  (97 ≤ c.toNat && c.toNat ≤ 122) || (65 ≤ c.toNat && c.toNat ≤ 90) ||
    (48 ≤ c.toNat && c.toNat ≤ 57) || c = '-' || c = '.' || c = '_' || c = '~'

/-- GLib `g_uri_escape_string (unescaped, NULL, FALSE)` on a string: every byte that is
not unreserved becomes `%` and its two hexadecimal digits.  A character of the model
stands for one byte. -/
def uri_escape (unescaped : CStr) : CStr :=
  (unescaped.map (fun c =>
    if is_unreserved c then [c]
    else ['%', hex_digit (c.toNat / 16 % 16), hex_digit (c.toNat % 16)])).flatten

/-- GLib `g_uri_escape_string (unescaped, NULL, FALSE)`: `NULL` for `NULL`. -/
def g_uri_escape_string (unescaped : Option CStr) : Option CStr := unescaped.map uri_escape

/-- The static `cgi_settings_get (http, options)`: the texts written to the reply. -/
def cgi_settings_get (st : App) : List CStr :=
  camera_http_sendXMLheader ++
    ["<settings>".toList,
     printf_s "<param name=\x27ServerAddress\x27 value=\x27%s\x27/>".toList
       (g_uri_escape_string (acs_get_ipname st.acs)),
     printf_s "<param name=\x27SourceID\x27 value=\x27%s\x27/>".toList
       (g_uri_escape_string (acs_get_source st.acs)),
     printf_s "<param name=\x27Username\x27 value=\x27%s\x27/>".toList
       (g_uri_escape_string (acs_get_username st.acs)),
     printf_s "<param name=\x27Password\x27 value=\x27%s\x27/>".toList
       (g_uri_escape_string (acs_get_password st.acs)),
     printf_s "<param name=\x27Enabled\x27 value=\x27%s\x27/>".toList
       (g_uri_escape_string (acs_get_enabled st.acs)),
     printf_s "<param name=\x27Analytic\x27 value=\x27%s\x27/>".toList
       (g_uri_escape_string st.par_analytic),
     printf_s "<param name=\x27Category\x27 value=\x27%s\x27/>".toList
       (g_uri_escape_string st.par_category),
     printf_s "<param name=\x27Items\x27 value=\x27%s\x27/>".toList
       (g_uri_escape_string st.par_items),
     printf_s "<param name=\x27DebugEnabled\x27 value=\x27%s\x27/>".toList
       (g_uri_escape_string st.par_debug_enabled),
     "</settings>".toList]

/-! ## Notions used in the statements -/

/-- The entries the `for` loop of `build_metadata_items` visits when `n` indices are
left and `data_items` is the rest of the vector: at most `n` tokens, up to the first
empty one. -/
def considered (n : Nat) (data_items : List CStr) : List CStr :=
  (data_items.take n).takeWhile (fun d => d ≠ [])

/-- The entries of `par_items` that `build_metadata_items` considers: the tokens of
`g_strsplit (par_items, ";", MAX_ITEMS)` up to the first empty one.  When the string
holds `MAX_ITEMS` or more semicolons, the last token is the whole rest of the
string. -/
def considered_items (par_items : CStr) : List CStr :=
  considered MAX_ITEMS (g_strsplit par_items ";".toList MAX_ITEMS)

/-- The pair recorded for an entry: the capitalized name and the value found. -/
def item_pair_of (key_value_set : Option AXEventKeyValueSet) (item : CStr) : mdp_item_pair :=
  ⟨capitalize item, (item_value key_value_set item).getD []⟩

/-- The items string in the documented form: every name followed by a semicolon. -/
def terminated (names : List CStr) : CStr :=
  (names.map (fun n => n ++ [';'])).flatten

/-! ## The inputs of the scenarios -/

/-- The configuration of scenario S1 with an empty host set explicitly. -/
def cfg_empty_host : acs :=
  ⟨some "u".toList, some "p".toList, some [], some "S".toList, some "yes".toList⟩

/-- The time 2024-01-02 03:04:05 UTC as `gmtime` reports it. -/
def tm_S1 : tm := ⟨5, 4, 3, 2, 0, 124⟩

/-- The ACS configuration of scenario S1. -/
def cfg_S1 : acs :=
  ⟨some "u".toList, some "p".toList, some "10.0.0.1".toList, some "S".toList,
   some "yes".toList⟩

/-- The item list of scenario S1. -/
def items_S1 : List mdp_item_pair :=
  [⟨"Plate".toList, "ABC".toList⟩, ⟨"Country".toList, "SE".toList⟩]

/-- The event of scenario S1. -/
def event_S1 : AXEventKeyValueSet :=
  .ofList [("plate".toList, .string "ABC".toList), ("country".toList, .string "SE".toList)]

/-- The event of scenario S2: the event of S1 without `country`. -/
def event_S2 : AXEventKeyValueSet :=
  .ofList [("plate".toList, .string "ABC".toList)]

/-- The event of S1 with another plate. -/
def event_XYZ : AXEventKeyValueSet :=
  .ofList [("plate".toList, .string "XYZ".toList), ("country".toList, .string "SE".toList)]

/-- The items string of scenario S5: 22 entries. -/
def items_S5 : CStr := "a;b;c;d;e;f;g;h;i;j;k;l;m;n;o;p;q;r;s;t;u;v".toList

/-- The first 20 entries of the items string of scenario S5. -/
def items_first_20 : CStr := "a;b;c;d;e;f;g;h;i;j;k;l;m;n;o;p;q;r;s;t".toList

/-- The program state of scenario S1 with the given content filter. -/
def app_S1 (par_filter : CStr) : App where
  event_subscription_id := 1
  par_debug_enabled := some "no".toList
  par_analytic := some "LPR".toList
  par_category := some "Uncategorized".toList
  par_items := some "plate;country;".toList
  par_filter := some par_filter
  acs := some cfg_S1
  cur_metadata_items := []

/-- A transport whose output carries the text HTTP:200 inside the response body
and ends with the sentinel of status 401. -/
def transport_401 : CStr → Option CStr :=
  fun _ => some ("\x7b\"msg\":\"HTTP:200\"\x7d".toList ++ ("HTTP:".toList ++ "401".toList))

/-- An event with a string, the two booleans and two integers. -/
def event_kinds : AXEventKeyValueSet :=
  .ofList [("plate".toList, .string "ABC".toList), ("active".toList, .boolean true),
    ("idle".toList, .boolean false), ("count".toList, .integer 42),
    ("delta".toList, .integer (-7))]

/-! ## Notions and inputs for the CGIs, the subscription and the parameters -/

/-- The program state of scenario S4: S1 with reporting switched off. -/
def app_S4 : App :=
  { app_S1 " ".toList with acs := some { cfg_S1 with enabled := some "no".toList } }

/-- The program state of scenario S3: S1 with the items "plate;count;". -/
def app_S3 : App :=
  { app_S1 " ".toList with par_items := some "plate;count;".toList }

/-- A transport that answers with an empty body and status 200. -/
def transport_200 : CStr → Option CStr := fun _ => some "HTTP:200".toList

/-- The value of the first entry of a key/value set under a key: `none` when the key
is not in the set. -/
def topic_value (key_value_set : List key_value) (key : CStr) : Option (Option CStr) :=
  (key_value_set.find? (fun e => e.key = key)).map (fun e => e.value)

/-- An event system that accepts every subscription and hands out the id 7. -/
def subscribe_ok : List key_value → subscribe_result := fun _ => ⟨true, 7⟩

/-- The program state of S1 with the items configuration empty. -/
def app_no_items : App := { app_S1 " ".toList with par_items := some [] }

/-- One entry of the settings document: a `param` element with a name and a value. -/
def param_entry (name value : CStr) : CStr :=
  "<param name=\x27".toList ++ name ++ "\x27 value=\x27".toList ++ value ++ "\x27/>".toList

/-- The callback `set_items` of main.c as a function pointer. -/
def cb_set_items : CAMERA_PARAM_callback := ⟨"set_items".toList⟩

/-- Statics of camera.c after `camera_param_init`, with the parameter Items stored as
"a;" and no callback registered. -/
def params_items : camera_params :=
  ⟨true, some [], [("Items".toList, "a;".toList)]⟩

/-- The number a decimal digit stands for. -/
def digit_value (c : Char) : Nat := c.toNat - 48

/-- The number a string of decimal digits stands for. -/
def decimal_value (s : CStr) : Nat := s.foldl (fun n c => 10 * n + digit_value c) 0

/-- Reads a text of the form `YYYY-MM-DD HH:MM:SS` (the pattern
`^\d{4}-\d{2}-\d{2} \d{2}:\d{2}:\d{2}$`): the year, month, day, hour, minute and second
it shows, `none` when the text does not have that form. -/
def read_timestamp (s : CStr) : Option (Nat × Nat × Nat × Nat × Nat × Nat) :=
  match s with
  | [y1, y2, y3, y4, '-', m1, m2, '-', d1, d2, ' ', h1, h2, ':', n1, n2, ':', s1, s2] =>
    if [y1, y2, y3, y4, m1, m2, d1, d2, h1, h2, n1, n2, s1, s2].all Char.isDigit then
      some (decimal_value [y1, y2, y3, y4], decimal_value [m1, m2], decimal_value [d1, d2],
        decimal_value [h1, h2], decimal_value [n1, n2], decimal_value [s1, s2])
    else none
  | _ => none

/-- Twenty names: a, b, ..., t. -/
def names_a_t : List CStr :=
  ["a", "b", "c", "d", "e", "f", "g", "h", "i", "j", "k", "l", "m", "n", "o", "p", "q", "r",
    "s", "t"].map String.toList

/-- An event that carries every one of the twenty names as a string. -/
def event_a_t : AXEventKeyValueSet :=
  .ofList (names_a_t.map (fun n => (n, AXValue.string "x".toList)))

/-! ## Notions and inputs for the event system, the setters and the envelope -/

/-- The statics of main.c when `main` has created the ACS handle and no parameter
callback has run yet: the subscription id is -1 and every parameter is `NULL`. -/
def app_initial : App := ⟨-1, none, none, none, none, none, some acs_init, []⟩

/-- The event system (axevent) as far as the subscriptions of main.c go; it is outside
the repository.  `live` holds the ids (each a `guint`) of the subscriptions that are live,
`accepted` counts the subscriptions accepted so far. -/
structure AXEventHandler where
  live : List Int
  accepted : Nat
  deriving DecidableEq, Repr

/-- An event system that accepts every subscription: what it answers to
`ax_event_handler_subscribe`, where `ids n`, taken as a `guint`, is the id it hands out for
the subscription number `n`. -/
def ax_event_handler_subscribe (ids : Nat → Nat) (b : AXEventHandler) :
    List key_value → subscribe_result :=
  fun _ => ⟨true, ids b.accepted % 4294967296⟩

/-- What one effect of main.c does to the event system: `ax_event_handler_unsubscribe`
ends the subscription with that id (if there is one), an accepted
`ax_event_handler_subscribe` starts one under the id handed out. -/
def AXEventHandler.step (ids : Nat → Nat) (b : AXEventHandler) : Effect → AXEventHandler
  | .unsubscribe subscription =>
    { b with live := b.live.filter (fun i => i ≠ subscription) }
  | .subscribe _ => ⟨((ids b.accepted % 4294967296 : Nat) : Int) :: b.live, b.accepted + 1⟩
  | _ => b

/-- A change of the topic: a call of `set_analytic` or of `set_category`. -/
inductive topic_change where
  | analytic (value : Option CStr)
  | category (value : Option CStr)
  deriving DecidableEq, Repr

/-- One call of `set_analytic` or `set_category` against the accepting event system:
the event system and the statics of main.c afterwards. -/
def topic_change.apply (ids : Nat → Nat) (s : AXEventHandler × App) (c : topic_change) :
    AXEventHandler × App :=
  let r :=
    match c with
    | .analytic value => set_analytic (ax_event_handler_subscribe ids s.1) s.2 value
    | .category value => set_category (ax_event_handler_subscribe ids s.1) s.2 value
  (r.2.foldl (AXEventHandler.step ids) s.1, r.1)

/-- A sequence of calls of `set_analytic` and `set_category`, from the initial state
with no live subscription. -/
def run_topic_changes (ids : Nat → Nat) (changes : List topic_change) :
    AXEventHandler × App :=
  changes.foldl (topic_change.apply ids) (⟨[], 0⟩, app_initial)

/-- The namespace of the first entry of a key/value set under a key: `none` when the
key is not in the set, `some none` when it was added with the namespace `NULL`. -/
def topic_name_space (key_value_set : List key_value) (key : CStr) : Option (Option CStr) :=
  (key_value_set.find? (fun e => e.key = key)).map (fun e => e.name_space)

/-- Nineteen names: a, b, ..., s. -/
def names_a_s : List CStr :=
  ["a", "b", "c", "d", "e", "f", "g", "h", "i", "j", "k", "l", "m", "n", "o", "p", "q", "r",
    "s"].map String.toList

/-- An event that carries the field `a` only. -/
def event_a : AXEventKeyValueSet := .ofList [("a".toList, .string "1".toList)]

/-- An event that carries the fields `a` and `b`. -/
def event_a_b : AXEventKeyValueSet :=
  .ofList [("a".toList, .string "1".toList), ("b".toList, .string "2".toList)]

/-- An item list with a value that holds a double quote and a single quote. -/
def items_quotes : List mdp_item_pair := [⟨"Plate".toList, "A\"B\x27C".toList⟩]

/-- The program state of S4 with the item list of S1 as the current-items snapshot and
an empty items string. -/
def app_S4_no_items : App :=
  { app_S4 with par_items := some [], cur_metadata_items := items_S1 }

/-! ## Lemmas -/

set_option maxRecDepth 100000

theorem g_strrstr_none_of_no_occurrence (n b : CStr) (hn : n ≠ []) (hb : ¬ n <:+: b) :
    g_strrstr b n = none := by
  induction b with
  | nil => unfold g_strrstr; rw [if_neg hn]
  | cons c cs ih =>
    rw [List.infix_cons_iff, not_or] at hb
    have h1 : n.isPrefixOf (c :: cs) = false := by
      rw [Bool.eq_false_iff]; intro h; exact hb.1 ( List.isPrefixOf_iff_prefix.1 h)
    unfold g_strrstr
    rw [ih hb.2]
    simp only [h1]
    rfl

theorem g_strrstr_append_left (n body rest r : CStr) (hn : n ≠ [])
    (hr : g_strrstr rest n = some r) : g_strrstr (body ++ rest) n = some r := by
  induction body with
  | nil => exact hr
  | cons c cs ih =>
    rw [List.cons_append]
    unfold g_strrstr
    rw [ih]
    simp only [if_neg hn]

theorem g_strrstr_at_head (n tail : CStr) (c : Char) (hn : n ≠ [])
    (hp : n <+: c :: tail) (ht : ¬ n <:+: tail) :
    g_strrstr (c :: tail) n = some (c :: tail) := by
  unfold g_strrstr
  rw [g_strrstr_none_of_no_occurrence n tail hn ht]
  have h1 : n.isPrefixOf (c :: tail) = true := by exact ( List.isPrefixOf_iff_prefix.2 hp)
  simp only [h1]
  rfl

theorem HTTP_does_not_occur (s : CStr) (hs : 'H' ∉ s) : ¬ "HTTP".toList <:+: s := by
  intro h
  exact hs (h.subset (by decide))

theorem g_strrstr_sentinel (body tail : CStr) (ht : 'H' ∉ tail) :
    g_strrstr (body ++ ("HTTP:".toList ++ tail)) "HTTP".toList = some ("HTTP:".toList ++ tail) := by
  apply g_strrstr_append_left _ _ _ _ (by decide)
  have e : "HTTP:".toList ++ tail = 'H' :: ("TTP:".toList ++ tail) := rfl
  rw [e]
  apply g_strrstr_at_head _ _ _ (by decide)
  · exact ⟨':' :: tail, rfl⟩
  · apply HTTP_does_not_occur
    intro h
    rcases List.mem_append.1 h with h | h
    · exact absurd h (by decide)
    · exact ht h

theorem sscanf_status (code : CStr) (hlen : code.length = 3)
    (hsp : ∀ c ∈ code, isspace c = false) :
    sscanf_HTTP_3s ("HTTP:".toList ++ code) = some code := by
  match code, hlen with
  | [a, b, c], _ =>
    have ha := hsp a (by simp)
    have hb := hsp b (by simp)
    have hc := hsp c (by simp)
    simp [sscanf_HTTP_3s, List.dropWhile, List.takeWhile, ha, hb, hc]

theorem sscanf_no_colon (rest : CStr) (h : rest.head? ≠ some ':') :
    sscanf_HTTP_3s ("HTTP".toList ++ rest) = none := by
  match rest, h with
  | [], _ => rfl
  | c :: cs, h =>
    have hc : c ≠ ':' := fun e => h (by simp [e])
    show sscanf_HTTP_3s ('H' :: 'T' :: 'T' :: 'P' :: c :: cs) = none
    unfold sscanf_HTTP_3s
    split
    · rename_i heq
      simp at heq
      exact absurd heq.1 hc
    · rfl

theorem strftime_length_pos (t : tm) : (strftime_F_T t).length ≠ 0 := by
  simp [strftime_F_T, pad2]

theorem acs_run_sync_eq (t : tm) (transport : CStr → Option CStr) (h : acs)
    (metadata_items : List mdp_item_pair) (e : Option CStr)
    (hready : is_initialized (some h) = true) (htime : (strftime_F_T t).length < 200) :
    acs_run (some t) transport (some h) metadata_items (some e) =
      ⟨(check_jSON_response (transport (acs_cmd h (strftime_F_T t) metadata_items)) e).1,
       some (check_jSON_response (transport (acs_cmd h (strftime_F_T t) metadata_items)) e).2,
       [Effect.spawn_sync (acs_cmd h (strftime_F_T t) metadata_items)]⟩ := by
  have h0 := strftime_length_pos t
  have h1 : ¬ ((strftime_F_T t).length = 0 ∨ 200 ≤ (strftime_F_T t).length) := by omega
  unfold acs_run
  rw [if_neg (by rw [hready]; decide)]
  simp only [if_neg h1, Option.getD_some]

theorem acs_run_async_eq (t : tm) (transport : CStr → Option CStr) (h : acs)
    (metadata_items : List mdp_item_pair)
    (hready : is_initialized (some h) = true) (htime : (strftime_F_T t).length < 200) :
    acs_run (some t) transport (some h) metadata_items none =
      ⟨true, none, [Effect.spawn_async (acs_cmd h (strftime_F_T t) metadata_items)]⟩ := by
  have h0 := strftime_length_pos t
  have h1 : ¬ ((strftime_F_T t).length = 0 ∨ 200 ≤ (strftime_F_T t).length) := by omega
  unfold acs_run
  rw [if_neg (by rw [hready]; decide)]
  simp only [if_neg h1, Option.getD_some]

theorem isspace_of_isDigit (c : Char) (h : c.isDigit = true) : isspace c = false := by
  rw [Bool.eq_false_iff]
  intro hs
  simp only [isspace, Bool.or_eq_true, decide_eq_true_eq] at hs
  rcases hs with ((((hs | hs) | hs) | hs) | hs) | hs <;> subst hs <;> exact absurd h (by decide)

/-- The result `check_jSON_response` gives for a parsed status field. -/
theorem check_status (body code : CStr) (e : Option CStr) (hlen : code.length = 3)
    (hd : ∀ c ∈ code, c.isDigit = true) :
    check_jSON_response (some (body ++ ("HTTP:".toList ++ code))) e =
      if code = "200".toList then (true, some (e.getD "Unknown Error".toList))
      else if code = "000".toList then (false, some "Bad IP:Port".toList)
      else if code = "401".toList then (false, some "Unauthorized".toList)
      else if code = "400".toList then (false, some "Bad source ID".toList)
      else (false, some (e.getD "Unknown Error".toList)) := by
  have hH : 'H' ∉ code := fun hm => absurd (hd _ hm) (by decide)
  have hsp : ∀ c ∈ code, isspace c = false := by
    intro c hc
    exact isspace_of_isDigit c (hd c hc)
  unfold check_jSON_response
  simp only [g_strrstr_sentinel body code hH, sscanf_status code hlen hsp]
  cases e <;> split_ifs <;> simp_all

theorem considered_zero (l : List CStr) : considered 0 l = [] := by
  simp [considered]

theorem considered_nil (n : Nat) : considered n [] = [] := by
  simp [considered]

theorem considered_cons_empty (n : Nat) (l : List CStr) : considered (n + 1) ([] :: l) = [] := by
  simp [considered]

theorem considered_cons (n : Nat) (d : CStr) (l : List CStr) (hd : d ≠ []) :
    considered (n + 1) (d :: l) = d :: considered n l := by
  simp [considered, List.takeWhile, hd]

theorem items_loop_resolved (kvs : Option AXEventKeyValueSet) (fk fv : Option CStr) :
    ∀ (n : Nat) (l : List CStr) (cm : Bool) (acc : List mdp_item_pair),
      (∀ e ∈ considered n l, item_value kvs e ≠ none) →
      items_loop kvs fk fv n l cm acc =
        ⟨true,
         cm || (considered n l).any (fun e => decide (fk = some e ∧ fv = item_value kvs e)),
         acc ++ (considered n l).map (item_pair_of kvs)⟩ := by
  intro n
  induction n with
  | zero => intro l cm acc _; simp [items_loop, considered_zero]
  | succ n ih =>
    intro l cm acc hres
    cases l with
    | nil => simp [items_loop, considered_nil]
    | cons d ds =>
      by_cases hd : d = []
      · subst hd; simp [items_loop, considered_cons_empty]
      · rw [considered_cons n d ds hd] at hres ⊢
        have hdv := hres d (by simp)
        obtain ⟨v, hv⟩ := Option.ne_none_iff_exists'.1 hdv
        have hrest : ∀ e ∈ considered n ds, item_value kvs e ≠ none :=
          fun e he => hres e (by simp [he])
        unfold items_loop
        simp only [if_neg hd, hv]
        rw [ih ds _ _ hrest]
        by_cases hm : fk = some d ∧ fv = some v
        · have hm2 : fk.isSome = true ∧ fv.isSome = true ∧ fk = some d ∧ fv = some v := by
            rcases hm with ⟨h1, h2⟩; subst h1; subst h2; simp
          simp [hm2, hm, item_pair_of, hv]
        · have hm2 : ¬ (fk.isSome = true ∧ fv.isSome = true ∧ fk = some d ∧ fv = some v) :=
            fun h => hm ⟨h.2.2.1, h.2.2.2⟩
          rcases not_and_or.1 hm with h | h <;> simp [hm2, h, item_pair_of, hv]

theorem items_loop_unresolved (kvs : Option AXEventKeyValueSet) (fk fv : Option CStr) :
    ∀ (n : Nat) (l : List CStr) (cm : Bool) (acc : List mdp_item_pair),
      (∃ e ∈ considered n l, item_value kvs e = none) →
      (items_loop kvs fk fv n l cm acc).ret = false := by
  intro n
  induction n with
  | zero => intro l cm acc h; simp [considered_zero] at h
  | succ n ih =>
    intro l cm acc hex
    cases l with
    | nil => simp [considered_nil] at hex
    | cons d ds =>
      by_cases hd : d = []
      · subst hd; simp [considered_cons_empty] at hex
      · rw [considered_cons n d ds hd] at hex
        unfold items_loop
        simp only [if_neg hd]
        cases hv : item_value kvs d with
        | none => rfl
        | some v =>
          simp only []
          apply ih
          obtain ⟨e, he, hnone⟩ := hex
          rcases List.mem_cons.1 he with h | h
          · subst h; rw [hv] at hnone; cases hnone
          · exact ⟨e, h, hnone⟩

theorem parse_filter_sentinel : parse_filter " ".toList = (true, none, none) := by
  decide

theorem parse_filter_not_two (f : CStr) (hf : f ≠ " ".toList)
    (h2 : (g_strsplit f "=".toList 2).length ≠ 2) : parse_filter f = (false, none, none) := by
  unfold parse_filter
  rw [if_pos hf]
  split
  · rename_i k v heq
    rw [heq] at h2
    exact absurd rfl h2
  · rfl

theorem parse_filter_two (f k v : CStr) (hf : f ≠ " ".toList)
    (h2 : g_strsplit f "=".toList 2 = [k, v]) : parse_filter f = (false, some k, some v) := by
  unfold parse_filter
  rw [if_pos hf, h2]

theorem strstr_split_char (c : Char) (k v : CStr) (hk : c ∉ k) :
    strstr_split [c] (k ++ c :: v) = some (k, v) := by
  induction k with
  | nil => simp [strstr_split]
  | cons a as ih =>
    have ha : c ≠ a := fun h => hk (by simp [h])
    have has : c ∉ as := fun h => hk (by simp [h])
    simp [strstr_split, ih has, ha]

theorem g_strsplit_key_value (k v : CStr) (hk : '=' ∉ k) :
    g_strsplit (k ++ '=' :: v) "=".toList 2 = [k, v] := by
  have h0 : k ++ '=' :: v ≠ [] := by simp
  unfold g_strsplit
  rw [if_neg h0]
  have h2 : (if (2 : Int) < 1 then G_MAXINT else (2 : Int).toNat) = 0 + 2 := by decide
  rw [h2]
  unfold g_strsplit_loop
  have h3 : "=".toList = ['='] := rfl
  rw [h3, strstr_split_char '=' k v hk]
  rfl

theorem key_value_ne_sentinel (k v : CStr) : k ++ '=' :: v ≠ " ".toList := by
  intro h
  have hm : '=' ∈ k ++ '=' :: v := by simp
  rw [h] at hm
  exact absurd hm (by decide)

theorem parse_filter_key_value (k v : CStr) (hk : '=' ∉ k) :
    parse_filter (k ++ '=' :: v) = (false, some k, some v) :=
  parse_filter_two _ k v (key_value_ne_sentinel k v) (g_strsplit_key_value k v hk)

/-- Every outcome of `build_metadata_items`, by what the loop finds. -/
theorem build_unresolved (par_items par_filter : CStr) (kvs : Option AXEventKeyValueSet)
    (h : ∃ e ∈ considered_items par_items, item_value kvs e = none) :
    build_metadata_items par_items par_filter kvs = (false, []) := by
  unfold build_metadata_items
  have := items_loop_unresolved kvs (parse_filter par_filter).2.1 (parse_filter par_filter).2.2
    MAX_ITEMS (g_strsplit par_items ";".toList MAX_ITEMS) (parse_filter par_filter).1 [] h
  simp only [this, true_or, if_true]

theorem build_resolved (par_items par_filter : CStr) (kvs : Option AXEventKeyValueSet)
    (h : ∀ e ∈ considered_items par_items, item_value kvs e ≠ none) :
    build_metadata_items par_items par_filter kvs =
      if ((parse_filter par_filter).1 || (considered_items par_items).any (fun e =>
          decide ((parse_filter par_filter).2.1 = some e ∧
            (parse_filter par_filter).2.2 = item_value kvs e))) = true
      then (true, (considered_items par_items).map (item_pair_of kvs))
      else (false, []) := by
  unfold build_metadata_items
  have hl := items_loop_resolved kvs (parse_filter par_filter).2.1 (parse_filter par_filter).2.2
    MAX_ITEMS (g_strsplit par_items ";".toList MAX_ITEMS) (parse_filter par_filter).1 [] h
  have hc : considered MAX_ITEMS (g_strsplit par_items ";".toList MAX_ITEMS) =
      considered_items par_items := rfl
  rw [hc] at hl
  simp only [hl, List.nil_append]
  generalize ((parse_filter par_filter).1 || (considered_items par_items).any (fun e =>
          decide ((parse_filter par_filter).2.1 = some e ∧
            (parse_filter par_filter).2.2 = item_value kvs e))) = b
  cases b <;> simp

theorem g_strsplit_loop_terminated (names : List CStr) (hn : ∀ n ∈ names, ';' ∉ n) :
    ∀ m : Nat, names.length < m →
      g_strsplit_loop [';'] m (terminated names) = names ++ [[]] := by
  induction names with
  | nil =>
    intro m hm
    match m, hm with
    | 1, _ => rfl
    | k + 2, _ => rfl
  | cons a as ih =>
    intro m hm
    match m, hm with
    | 1, hm => simp at hm
    | k + 2, hm =>
      have ha : ';' ∉ a := hn a (by simp)
      have has : ∀ n ∈ as, ';' ∉ n := fun n h => hn n (by simp [h])
      have e : terminated (a :: as) = a ++ ';' :: terminated as := by
        simp [terminated]
      rw [e]
      unfold g_strsplit_loop
      rw [strstr_split_char ';' a (terminated as) ha]
      simp only [List.cons_append]
      rw [ih has (k + 1) (by simp at hm; omega)]

/-- For an items string in the documented form with fewer than `MAX_ITEMS` names (none
empty, none with a semicolon) the considered entries are the names. -/
theorem considered_items_terminated (names : List CStr)
    (hn : ∀ n ∈ names, n ≠ [] ∧ ';' ∉ n) (hlen : names.length < MAX_ITEMS) :
    considered_items (terminated names) = names := by
  unfold considered_items g_strsplit
  by_cases h0 : terminated names = []
  · have : names = [] := by
      cases names with
      | nil => rfl
      | cons a as => simp [terminated] at h0
    subst this
    simp [terminated, considered]
  · rw [if_neg h0]
    have h2 : (if (MAX_ITEMS : Int) < 1 then G_MAXINT else (MAX_ITEMS : Int).toNat) = MAX_ITEMS := by
      decide
    have h3 : ";".toList = [';'] := rfl
    rw [h2, h3, g_strsplit_loop_terminated names (fun n h => (hn n h).2) MAX_ITEMS hlen]
    unfold considered
    have h4 : (names ++ [[]]).take MAX_ITEMS = names ++ [[]] := by
      apply List.take_of_length_le
      simp; omega
    rw [h4, List.takeWhile_append_of_pos]
    · simp [List.takeWhile]
    · intro n h; simpa using (hn n h).1

theorem is_initialized_eq_false_iff (h : acs) :
    is_initialized (some h) = false ↔
      (h.enabled ≠ some "yes".toList ∨ h.username = none ∨ h.password = none ∨
        h.ipname = none ∨ h.source = none) := by
  unfold is_initialized
  dsimp only
  by_cases h1 : h.enabled = some "yes".toList
  · by_cases h2 : h.username = none <;> by_cases h3 : h.password = none <;>
      by_cases h4 : h.ipname = none <;> by_cases h5 : h.source = none <;>
      simp [h1, h2, h3, h4, h5]
  · have h0 : h.enabled = none ∨ h.enabled ≠ some "yes".toList := Or.inr h1
    rw [if_pos h0]
    exact ⟨fun _ => Or.inl h1, fun _ => rfl⟩

theorem considered_length_le (n : Nat) (l : List CStr) : (considered n l).length ≤ n := by
  unfold considered
  exact ((List.takeWhile_sublist _).length_le).trans (List.length_take_le n l)

theorem considered_ne_nil (n : Nat) (l : List CStr) : ∀ e ∈ considered n l, e ≠ [] := by
  intro e he
  unfold considered at he
  simpa using List.mem_takeWhile_imp he

theorem item_value_eq_none_iff (s : AXEventKeyValueSet) (name : CStr) :
    item_value (some s) name = none ↔
      (s.get_string name = none ∧ s.get_boolean name = none ∧
        s.get_integer name = none ∧ s.get_double name = none) := by
  unfold item_value
  cases h1 : s.get_string name <;> cases h2 : s.get_boolean name <;>
    cases h3 : s.get_integer name <;> cases h4 : s.get_double name <;> simp [h1, h2, h3, h4]

theorem check_no_sentinel (b : CStr) (e : Option CStr) (hb : ¬ "HTTP".toList <:+: b) :
    check_jSON_response (some b) e = (false, some (e.getD "Unknown Error".toList)) := by
  unfold check_jSON_response
  simp only [g_strrstr_none_of_no_occurrence _ b (by decide) hb]
  cases e <;> simp

theorem check_sentinel_no_colon (body rest : CStr) (e : Option CStr) (hH : 'H' ∉ rest)
    (hc : rest.head? ≠ some ':') :
    check_jSON_response (some (body ++ ("HTTP".toList ++ rest))) e =
      (false, some (e.getD "Unknown Error".toList)) := by
  have hg : g_strrstr (body ++ ("HTTP".toList ++ rest)) "HTTP".toList =
      some ("HTTP".toList ++ rest) := by
    apply g_strrstr_append_left _ _ _ _ (by decide)
    have e1 : "HTTP".toList ++ rest = 'H' :: ("TTP".toList ++ rest) := rfl
    rw [e1]
    apply g_strrstr_at_head _ _ _ (by decide)
    · exact ⟨rest, rfl⟩
    · apply HTTP_does_not_occur
      intro h
      rcases List.mem_append.1 h with h | h
      · exact absurd h (by decide)
      · exact hH h
  unfold check_jSON_response
  simp only [hg, sscanf_no_colon rest hc]
  cases e <;> simp

theorem check_absent (e : Option CStr) :
    check_jSON_response none e = (false, some (e.getD "Unknown Error".toList)) := by
  unfold check_jSON_response
  cases e <;> simp

theorem build_cases (par_items par_filter : CStr) (kvs : Option AXEventKeyValueSet) :
    build_metadata_items par_items par_filter kvs = (false, []) ∨
      (build_metadata_items par_items par_filter kvs =
          (true, (considered_items par_items).map (item_pair_of kvs)) ∧
        ∀ e ∈ considered_items par_items, item_value kvs e ≠ none) := by
  by_cases h : ∀ e ∈ considered_items par_items, item_value kvs e ≠ none
  · rw [build_resolved par_items par_filter kvs h]
    split_ifs
    · exact Or.inr ⟨rfl, h⟩
    · exact Or.inl rfl
  · left
    apply build_unresolved
    push_neg at h
    exact h

theorem build_no_key (par_items par_filter : CStr) (kvs : Option AXEventKeyValueSet)
    (hp : parse_filter par_filter = (false, none, none)) :
    build_metadata_items par_items par_filter kvs = (false, []) := by
  rcases build_cases par_items par_filter kvs with h | ⟨_, hres⟩
  · exact h
  · rw [build_resolved par_items par_filter kvs hres, hp]
    simp

theorem metadata_event_callback_eq (now : Option tm) (transport : CStr → Option CStr)
    (st : App) (kvs : AXEventKeyValueSet) (par_items par_filter : CStr)
    (hitems : st.par_items = some par_items) (hfilter : st.par_filter = some par_filter) :
    metadata_event_callback now transport st (some ⟨some kvs⟩) =
      if (build_metadata_items par_items par_filter (some kvs)).1 = false then
        some (st, [Effect.event_free])
      else
        some
          (if (build_metadata_items par_items par_filter (some kvs)).2 ≠ [] then
            { st with
              cur_metadata_items := (build_metadata_items par_items par_filter (some kvs)).2 }
           else st,
           (acs_run now transport st.acs
              (build_metadata_items par_items par_filter (some kvs)).2 none).effects ++
            [Effect.overlay_set_data (build_metadata_items par_items par_filter (some kvs)).2
               3000 st.par_analytic st.par_category,
             Effect.event_free]) := by
  unfold metadata_event_callback
  simp only [hitems, hfilter]

/-! ## The claims -/

/-- C1, counterexample: with `enabled` "yes", user name, password and source id set and
the host set explicitly to the empty string, `acs_run` called with an error location
does not report "Missing config": it builds the command and spawns it. -/
theorem acs_run_empty_host_not_missing_config :
    cfg_empty_host.ipname = some [] ∧
    (acs_run (some tm_S1) (fun _ => none) (some cfg_empty_host) [] (some none)).effects ≠ [] ∧
    (acs_run (some tm_S1) (fun _ => none) (some cfg_empty_host) [] (some none)).error ≠
      some (some "Missing config".toList) := by
  decide

/-- C1, as amended: for every configuration in which `enabled` is not "yes", or in
which one of user name, password, host and source id is unset (`NULL`), `acs_run` returns
`FALSE`, stores "Missing config" in the error location when one is given, and spawns no
command. -/
theorem acs_run_unset_missing_config (now : Option tm) (transport : CStr → Option CStr)
    (h : acs) (metadata_items : List mdp_item_pair) (error : Option (Option CStr))
    (hcfg : h.enabled ≠ some "yes".toList ∨ h.username = none ∨ h.password = none ∨
      h.ipname = none ∨ h.source = none) :
    acs_run now transport (some h) metadata_items error =
      ⟨false, error.map (fun _ => some "Missing config".toList), []⟩ := by
  have hi : is_initialized (some h) = false := (is_initialized_eq_false_iff h).2 hcfg
  simp [acs_run, hi]

/-- C1, witness: the configuration of S1 with the host never set. -/
theorem acs_run_unset_missing_config_witness :
    acs_run (some tm_S1) (fun _ => none)
        (some ⟨some "u".toList, some "p".toList, none, some "S".toList, some "yes".toList⟩)
        [] (some none) =
      ⟨false, some (some "Missing config".toList), []⟩ :=
  acs_run_unset_missing_config (some tm_S1) (fun _ => none)
    ⟨some "u".toList, some "p".toList, none, some "S".toList, some "yes".toList⟩ [] (some none)
    (by decide)

/-- C2: for a ready configuration and an error location that holds no message on
entry (as `cgi_test_reporting` passes it), the result of the blocking `acs_run` is decided
by the three-digit status after the last `HTTP:` of the transport output, whatever the
text `body` in front of it: 200 gives `TRUE`; 000, 401 and 400 give `FALSE` with "Bad
IP:Port", "Unauthorized" and "Bad source ID"; every other status gives `FALSE` with
"Unknown Error", and so do an output in which `HTTP` does not occur, an output whose last
`HTTP` is not followed by a colon, and an absent output. -/
theorem sync_result_by_last_sentinel (t : tm) (transport : CStr → Option CStr) (h : acs)
    (metadata_items : List mdp_item_pair)
    (hready : is_initialized (some h) = true) (htime : (strftime_F_T t).length < 200) :
    (∀ body code : CStr, code.length = 3 → (∀ c ∈ code, c.isDigit = true) →
      transport (acs_cmd h (strftime_F_T t) metadata_items) =
        some (body ++ ("HTTP:".toList ++ code)) →
      ((acs_run (some t) transport (some h) metadata_items (some none)).ret,
       (acs_run (some t) transport (some h) metadata_items (some none)).error) =
        if code = "200".toList then (true, some (some "Unknown Error".toList))
        else if code = "000".toList then (false, some (some "Bad IP:Port".toList))
        else if code = "401".toList then (false, some (some "Unauthorized".toList))
        else if code = "400".toList then (false, some (some "Bad source ID".toList))
        else (false, some (some "Unknown Error".toList))) ∧
    (∀ b : CStr, ¬ "HTTP".toList <:+: b →
      transport (acs_cmd h (strftime_F_T t) metadata_items) = some b →
      ((acs_run (some t) transport (some h) metadata_items (some none)).ret,
       (acs_run (some t) transport (some h) metadata_items (some none)).error) =
        (false, some (some "Unknown Error".toList))) ∧
    (∀ body rest : CStr, 'H' ∉ rest → rest.head? ≠ some ':' →
      transport (acs_cmd h (strftime_F_T t) metadata_items) =
        some (body ++ ("HTTP".toList ++ rest)) →
      ((acs_run (some t) transport (some h) metadata_items (some none)).ret,
       (acs_run (some t) transport (some h) metadata_items (some none)).error) =
        (false, some (some "Unknown Error".toList))) ∧
    (transport (acs_cmd h (strftime_F_T t) metadata_items) = none →
      ((acs_run (some t) transport (some h) metadata_items (some none)).ret,
       (acs_run (some t) transport (some h) metadata_items (some none)).error) =
        (false, some (some "Unknown Error".toList))) := by
  rw [acs_run_sync_eq t transport h metadata_items none hready htime]
  refine ⟨?_, ?_, ?_, ?_⟩
  · intro body code hlen hd hout
    rw [hout, check_status body code none hlen hd]
    split_ifs <;> rfl
  · intro b hb hout
    rw [hout, check_no_sentinel b none hb]
    rfl
  · intro body rest hH hc hout
    rw [hout, check_sentinel_no_colon body rest none hH hc]
    rfl
  · intro hout
    rw [hout, check_absent none]
    rfl

/-- C2, witness: the configuration of S1 and an output whose body holds the text
HTTP:200 and whose sentinel carries 401 give `FALSE` and "Unauthorized". -/
theorem sync_result_by_last_sentinel_witness :
    ((acs_run (some tm_S1) transport_401 (some cfg_S1) items_S1 (some none)).ret,
     (acs_run (some tm_S1) transport_401 (some cfg_S1) items_S1 (some none)).error) =
      (false, some (some "Unauthorized".toList)) :=
  ((sync_result_by_last_sentinel tm_S1 transport_401 cfg_S1 items_S1 (by decide)
    (by decide)).1 "\x7b\"msg\":\"HTTP:200\"\x7d".toList "401".toList (by decide) (by decide)
    rfl).trans (by decide)

/-- C3, the code at the inputs of S1: the data member of the envelope `acs_run` spawns
is the text `"Plate":"ABC","Country":"SE",` between braces, with a comma after the last
member; it is not the object text without that comma. -/
theorem acs_run_S1_data_has_trailing_comma :
    (acs_run (some tm_S1) (fun _ => none) (some cfg_S1) items_S1 none).effects =
      [Effect.spawn_async (METABASE
        (jSON_head "2024-01-02 03:04:05".toList "S".toList ++
          "\"Plate\":\"ABC\",\"Country\":\"SE\",\x7d".toList ++ "\x7d\x7d".toList)
        "10.0.0.1".toList "u".toList "p".toList)] ∧
    (acs_run (some tm_S1) (fun _ => none) (some cfg_S1) items_S1 none).effects ≠
      [Effect.spawn_async (METABASE
        (jSON_head "2024-01-02 03:04:05".toList "S".toList ++
          "\"Plate\":\"ABC\",\"Country\":\"SE\"\x7d".toList ++ "\x7d\x7d".toList)
        "10.0.0.1".toList "u".toList "p".toList)] := by
  decide

/-- With the content filter " ", for every event record and every items string
whose considered entries all resolve in the record, `build_metadata_items` returns `TRUE`
and exactly one pair per entry, in the order of the items string: the name is the entry
with its first character upper-cased, the value is the value found for the entry.  There
are at most 20 such entries and none is empty. -/
theorem build_metadata_items_pairs_in_order (kvs : AXEventKeyValueSet) (par_items : CStr)
    (hres : ∀ e ∈ considered_items par_items, item_value (some kvs) e ≠ none) :
    build_metadata_items par_items " ".toList (some kvs) =
        (true, (considered_items par_items).map
          (fun e => ⟨capitalize e, (item_value (some kvs) e).getD []⟩)) ∧
      (considered_items par_items).length ≤ 20 ∧
      ∀ e ∈ considered_items par_items, e ≠ [] := by
  refine ⟨?_, considered_length_le _ _, considered_ne_nil _ _⟩
  rw [build_resolved par_items " ".toList (some kvs) hres, parse_filter_sentinel]
  rfl

/-- The items "plate;country;" and the event of S1 give (Plate, ABC), (Country, SE). -/
theorem build_metadata_items_pairs_in_order_witness :
    build_metadata_items "plate;country;".toList " ".toList (some event_S1) = (true, items_S1) :=
  (build_metadata_items_pairs_in_order event_S1 "plate;country;".toList (by decide)).1.trans
    (by decide)

/-- C4, the code at twenty names a, ..., t, each followed by a semicolon, with the filter
" " and an event record that carries every one of the twenty names: the twenty entries
are not empty and all resolve, yet `build_metadata_items` returns `FALSE` with the empty
list and not the twenty pairs (A, x), ..., (T, x), because the twentieth token of
`g_strsplit (par_items, ";", MAX_ITEMS)` is `t;`, which the record does not carry.  For
the nineteen names a, ..., s the nineteen pairs are returned, and for the items of S1 the
pairs (Plate, ABC), (Country, SE). -/
theorem twenty_resolving_entries_fail :
    names_a_t.length = 20 ∧
    (∀ n ∈ names_a_t, n ≠ []) ∧
    (∀ n ∈ names_a_t, item_value (some event_a_t) n = some "x".toList) ∧
    terminated names_a_t = "a;b;c;d;e;f;g;h;i;j;k;l;m;n;o;p;q;r;s;t;".toList ∧
    g_strsplit (terminated names_a_t) ";".toList MAX_ITEMS = names_a_s ++ ["t;".toList] ∧
    item_value (some event_a_t) "t;".toList = none ∧
    build_metadata_items (terminated names_a_t) " ".toList (some event_a_t) = (false, []) ∧
    build_metadata_items (terminated names_a_t) " ".toList (some event_a_t) ≠
      (true, names_a_t.map (fun n => ⟨capitalize n, "x".toList⟩)) ∧
    build_metadata_items (terminated names_a_s) " ".toList (some event_a_t) =
      (true, names_a_s.map (fun n => ⟨capitalize n, "x".toList⟩)) ∧
    build_metadata_items "plate;country;".toList " ".toList (some event_S1) =
      (true, items_S1) := by
  decide

/-- C5: when some considered entry of the items string is in the event record under
none of the four value kinds, `build_metadata_items` returns `FALSE` and the empty list
(also the pairs built for earlier entries are dropped), whatever the content filter, and
`metadata_event_callback` only frees the event: it spawns no command, does not touch the
overlay and leaves the state as it was. -/
theorem missing_field_discards_and_sends_nothing (now : Option tm)
    (transport : CStr → Option CStr) (st : App) (kvs : AXEventKeyValueSet)
    (par_items par_filter : CStr)
    (hitems : st.par_items = some par_items) (hfilter : st.par_filter = some par_filter)
    (hmiss : ∃ e ∈ considered_items par_items,
      kvs.get_string e = none ∧ kvs.get_boolean e = none ∧
        kvs.get_integer e = none ∧ kvs.get_double e = none) :
    build_metadata_items par_items par_filter (some kvs) = (false, []) ∧
      metadata_event_callback now transport st (some ⟨some kvs⟩) =
        some (st, [Effect.event_free]) := by
  have hb : build_metadata_items par_items par_filter (some kvs) = (false, []) := by
    apply build_unresolved
    obtain ⟨e, he, h4⟩ := hmiss
    exact ⟨e, he, (item_value_eq_none_iff kvs e).2 h4⟩
  refine ⟨hb, ?_⟩
  unfold metadata_event_callback
  simp only [hitems, hfilter, hb, if_true]

/-- C5, witness: items "plate;country;" and the event of S2, which lacks `country`. -/
theorem missing_field_discards_and_sends_nothing_witness :
    build_metadata_items "plate;country;".toList " ".toList (some event_S2) = (false, []) ∧
      metadata_event_callback (some tm_S1) (fun _ => none) (app_S1 " ".toList)
          (some ⟨some event_S2⟩) =
        some (app_S1 " ".toList, [Effect.event_free]) :=
  missing_field_discards_and_sends_nothing (some tm_S1) (fun _ => none) (app_S1 " ".toList)
    event_S2 "plate;country;".toList " ".toList rfl rfl
    ⟨"country".toList, by decide, by decide⟩

/-- C6, the code at the items string of S5 without an event record: 20 pairs
are returned, and the name of the last one is `T;u;v`, not `T`: the twentieth token of
`g_strsplit (par_items, ";", MAX_ITEMS)` is the whole rest of the string.  The names
differ from the first 20 entries title-cased, and they differ from the names returned for
the first 20 entries alone, so the entries after the twentieth do reach a returned
name. -/
theorem build_metadata_items_S5_last_name :
    build_metadata_items items_S5 " ".toList none =
      (true, ["A", "B", "C", "D", "E", "F", "G", "H", "I", "J", "K", "L", "M", "N", "O", "P",
        "Q", "R", "S", "T;u;v"].map (fun n => ⟨n.toList, "TEST".toList⟩)) ∧
    (build_metadata_items items_S5 " ".toList none).2.map (fun p => p.name) ≠
      ["A", "B", "C", "D", "E", "F", "G", "H", "I", "J", "K", "L", "M", "N", "O", "P",
        "Q", "R", "S", "T"].map String.toList ∧
    (build_metadata_items items_S5 " ".toList none).2.map (fun p => p.name) ≠
      (build_metadata_items items_first_20 " ".toList none).2.map (fun p => p.name) := by
  decide

/-- C7: the value recorded for an item is the string itself when the string getter
succeeds; else "yes" or "no" when the boolean getter succeeds; else the signed decimal
text when the integer getter succeeds (42 gives "42", -7 gives "-7"); else the text of the
double: the getters are tried in the order string, boolean, integer, double and the first
that succeeds decides.  Every pair that `build_metadata_items` returns carries the
capitalized name of a considered entry and this value of it; an event with a string, two
booleans and two integers gives ABC, yes, no, 42 and -7. -/
theorem item_value_by_kind (s : AXEventKeyValueSet) (name : CStr) :
    (∀ v, s.get_string name = some v → item_value (some s) name = some v) ∧
    (∀ b, s.get_string name = none → s.get_boolean name = some b →
      item_value (some s) name = some (if b = true then "yes".toList else "no".toList)) ∧
    (∀ i, s.get_string name = none → s.get_boolean name = none →
      s.get_integer name = some i → item_value (some s) name = some (printf_d i)) ∧
    (∀ d, s.get_string name = none → s.get_boolean name = none →
      s.get_integer name = none → s.get_double name = some d →
      item_value (some s) name = some d.printf_f) ∧
    printf_d 42 = "42".toList ∧ printf_d (-7) = "-7".toList ∧
    (∀ (par_items par_filter : CStr) (p : mdp_item_pair),
      p ∈ (build_metadata_items par_items par_filter (some s)).2 →
      ∃ e ∈ considered_items par_items,
        p.name = capitalize e ∧ item_value (some s) e = some p.value) ∧
    build_metadata_items "plate;active;idle;count;delta;".toList " ".toList
        (some event_kinds) =
      (true, [⟨"Plate".toList, "ABC".toList⟩, ⟨"Active".toList, "yes".toList⟩,
        ⟨"Idle".toList, "no".toList⟩, ⟨"Count".toList, "42".toList⟩,
        ⟨"Delta".toList, "-7".toList⟩]) := by
  refine ⟨?_, ?_, ?_, ?_, by decide, by decide, ?_, by decide⟩
  · intro v h1; simp [item_value, h1]
  · intro b h1 h2; simp [item_value, h1, h2]
  · intro i h1 h2 h3; simp [item_value, h1, h2, h3]
  · intro d h1 h2 h3 h4; simp [item_value, h1, h2, h3, h4]
  · intro par_items par_filter p hp
    rcases build_cases par_items par_filter (some s) with h | ⟨h, hres⟩
    · rw [h] at hp; cases hp
    · rw [h] at hp
      obtain ⟨e, he, hpe⟩ := List.mem_map.1 hp
      refine ⟨e, he, ?_, ?_⟩
      · rw [← hpe]; rfl
      · obtain ⟨v, hv⟩ := Option.ne_none_iff_exists'.1 (hres e he)
        rw [← hpe, hv]; simp [item_pair_of, hv]

/-- With a content filter `k=v` (the key `k` without a `=`) and an items string
whose considered entries all resolve in the event, `build_metadata_items` returns `TRUE`
exactly when some considered entry equals `k` as written in the items string (before it
is capitalized) and the value found for it equals `v`.  It then returns what it returns
without a filter, and `metadata_event_callback` hands that list to `acs_run` (non-blocking)
and to the overlay and keeps it as the current items; otherwise the result is `FALSE` with
the empty list and the callback only frees the event. -/
theorem filter_key_value_iff (now : Option tm) (transport : CStr → Option CStr) (st : App)
    (kvs : AXEventKeyValueSet) (par_items k v : CStr) (hk : '=' ∉ k)
    (hitems : st.par_items = some par_items) (hfilter : st.par_filter = some (k ++ '=' :: v))
    (hres : ∀ e ∈ considered_items par_items, item_value (some kvs) e ≠ none) :
    ((build_metadata_items par_items (k ++ '=' :: v) (some kvs)).1 = true ↔
      ∃ e ∈ considered_items par_items, e = k ∧ item_value (some kvs) e = some v) ∧
    ((∃ e ∈ considered_items par_items, e = k ∧ item_value (some kvs) e = some v) →
      build_metadata_items par_items (k ++ '=' :: v) (some kvs) =
        build_metadata_items par_items " ".toList (some kvs) ∧
      metadata_event_callback now transport st (some ⟨some kvs⟩) =
        some
          ({ st with
             cur_metadata_items := (build_metadata_items par_items " ".toList (some kvs)).2 },
           (acs_run now transport st.acs
              (build_metadata_items par_items " ".toList (some kvs)).2 none).effects ++
            [Effect.overlay_set_data (build_metadata_items par_items " ".toList (some kvs)).2
               3000 st.par_analytic st.par_category,
             Effect.event_free])) ∧
    (¬ (∃ e ∈ considered_items par_items, e = k ∧ item_value (some kvs) e = some v) →
      build_metadata_items par_items (k ++ '=' :: v) (some kvs) = (false, []) ∧
      metadata_event_callback now transport st (some ⟨some kvs⟩) =
        some (st, [Effect.event_free])) := by
  have hs : build_metadata_items par_items " ".toList (some kvs) =
      (true, (considered_items par_items).map (item_pair_of (some kvs))) := by
    rw [build_resolved par_items " ".toList (some kvs) hres, parse_filter_sentinel]; rfl
  have hb := build_resolved par_items (k ++ '=' :: v) (some kvs) hres
  rw [parse_filter_key_value k v hk] at hb
  simp only [Bool.false_or, List.any_eq_true, decide_eq_true_eq, Option.some.injEq] at hb
  have hcb := metadata_event_callback_eq now transport st kvs par_items (k ++ '=' :: v)
    hitems hfilter
  by_cases hex : ∃ e ∈ considered_items par_items, e = k ∧ item_value (some kvs) e = some v
  · have hex2 : ∃ x ∈ considered_items par_items, k = x ∧ some v = item_value (some kvs) x := by
      obtain ⟨e, he, h1, h2⟩ := hex
      exact ⟨e, he, h1.symm, h2.symm⟩
    rw [if_pos hex2] at hb
    have hne : (considered_items par_items).map (item_pair_of (some kvs)) ≠ [] := by
      obtain ⟨e, he, _⟩ := hex
      intro h0
      rw [List.map_eq_nil_iff] at h0
      rw [h0] at he
      cases he
    refine ⟨⟨fun _ => hex, fun _ => by rw [hb]⟩, fun _ => ⟨by rw [hb, hs], ?_⟩,
      fun h => absurd hex h⟩
    rw [hcb, hb, hs]
    simp only [Bool.true_eq_false, if_false, if_pos hne]
  · have hex2 : ¬ ∃ x ∈ considered_items par_items, k = x ∧ some v = item_value (some kvs) x := by
      rintro ⟨e, he, h1, h2⟩
      exact hex ⟨e, he, h1.symm, h2.symm⟩
    rw [if_neg hex2] at hb
    refine ⟨⟨fun h => ?_, fun h => absurd h hex⟩, fun h => absurd h hex, fun _ => ⟨hb, ?_⟩⟩
    · rw [hb] at h; cases h
    · rw [hcb, hb]
      simp only [if_true]

/-- With the filter "plate=ABC" and items "plate;country;", the event
of S1 (plate ABC) gives the list of S1 and `metadata_event_callback` spawns the command
and updates the overlay; the event with plate XYZ is discarded and only freed; the
capitalized key `Plate` does not match. -/
theorem filter_key_value_iff_witness :
    ((build_metadata_items "plate;country;".toList "plate=ABC".toList (some event_S1)).1 = true ↔
      ∃ e ∈ considered_items "plate;country;".toList,
        e = "plate".toList ∧ item_value (some event_S1) e = some "ABC".toList) ∧
    build_metadata_items "plate;country;".toList "plate=ABC".toList (some event_S1) =
      (true, items_S1) ∧
    build_metadata_items "plate;country;".toList "plate=ABC".toList (some event_XYZ) =
      (false, []) ∧
    metadata_event_callback (some tm_S1) (fun _ => none) (app_S1 "plate=ABC".toList)
        (some ⟨some event_S1⟩) =
      some ({ app_S1 "plate=ABC".toList with cur_metadata_items := items_S1 },
        [Effect.spawn_async (acs_cmd cfg_S1 "2024-01-02 03:04:05".toList items_S1),
         Effect.overlay_set_data items_S1 3000 (some "LPR".toList)
           (some "Uncategorized".toList),
         Effect.event_free]) ∧
    metadata_event_callback (some tm_S1) (fun _ => none) (app_S1 "plate=ABC".toList)
        (some ⟨some event_XYZ⟩) =
      some (app_S1 "plate=ABC".toList, [Effect.event_free]) ∧
    build_metadata_items "plate;country;".toList "Plate=ABC".toList (some event_S1) =
      (false, []) :=
  ⟨(filter_key_value_iff (some tm_S1) (fun _ => none) (app_S1 "plate=ABC".toList) event_S1
      "plate;country;".toList "plate".toList "ABC".toList (by decide) rfl rfl (by decide)).1,
   by decide, by decide, by decide, by decide, by decide⟩

/-- C8, the code at twenty names a, ..., t, each followed by a semicolon, with the filter
"a=x" and an event record that carries every one of the twenty names with the value `x`:
all entries resolve, the entry `a` equals the filter key and its value equals the filter
value, yet `build_metadata_items` returns `FALSE` with the empty list and
`metadata_event_callback` only frees the event, because the twentieth token of
`g_strsplit (par_items, ";", MAX_ITEMS)` is `t;`, which the record does not carry.  For
the nineteen names a, ..., s the same filter and record give the nineteen pairs. -/
theorem matching_filter_fails_at_twenty_entries :
    names_a_t.length = 20 ∧
    (∀ n ∈ names_a_t, item_value (some event_a_t) n = some "x".toList) ∧
    "a".toList ∈ names_a_t ∧
    parse_filter "a=x".toList = (false, some "a".toList, some "x".toList) ∧
    g_strsplit (terminated names_a_t) ";".toList MAX_ITEMS = names_a_s ++ ["t;".toList] ∧
    build_metadata_items (terminated names_a_t) "a=x".toList (some event_a_t) = (false, []) ∧
    metadata_event_callback (some tm_S1) (fun _ => none)
        { app_S1 "a=x".toList with par_items := some (terminated names_a_t) }
        (some ⟨some event_a_t⟩) =
      some ({ app_S1 "a=x".toList with par_items := some (terminated names_a_t) },
        [Effect.event_free]) ∧
    build_metadata_items (terminated names_a_s) "a=x".toList (some event_a_t) =
      (true, names_a_s.map (fun n => ⟨capitalize n, "x".toList⟩)) := by
  decide

/-- C9, counterexample: the filters "plate" and "" do not split into two pieces, and
with either of them the event of S1 is discarded, while with the filter " " the same
event and items give the list of S1. -/
theorem malformed_filter_is_not_sentinel :
    g_strsplit "plate".toList "=".toList 2 = ["plate".toList] ∧
    build_metadata_items "plate;country;".toList "plate".toList (some event_S1) = (false, []) ∧
    build_metadata_items "plate;country;".toList " ".toList (some event_S1) = (true, items_S1) ∧
    g_strsplit [] "=".toList 2 = [] ∧
    build_metadata_items "plate;country;".toList [] (some event_S1) = (false, []) := by
  decide

/-- C9, as amended: a content filter that is not " " and that `g_strsplit` does not
split on `=` into exactly two pieces can match nothing: for every items string and every
event record (or none) `build_metadata_items` returns `FALSE` and the empty list. -/
theorem malformed_filter_discards (par_filter : CStr) (hs : par_filter ≠ " ".toList)
    (h2 : (g_strsplit par_filter "=".toList 2).length ≠ 2) (par_items : CStr)
    (key_value_set : Option AXEventKeyValueSet) :
    build_metadata_items par_items par_filter key_value_set = (false, []) :=
  build_no_key par_items par_filter key_value_set (parse_filter_not_two par_filter hs h2)

/-- C9, witness: the filter "plate" with the items and the event of S1. -/
theorem malformed_filter_discards_witness :
    build_metadata_items "plate;country;".toList "plate".toList (some event_S1) = (false, []) :=
  malformed_filter_discards "plate".toList (by decide) (by decide) "plate;country;".toList
    (some event_S1)

theorem cgi_test_reporting_eq (now : Option tm) (transport : CStr → Option CStr) (st : App)
    (par_items par_filter : CStr)
    (h1 : st.par_analytic ≠ some " ".toList) (h2 : st.par_category ≠ some " ".toList)
    (h3 : st.par_items = some par_items) (h3n : par_items ≠ " ".toList)
    (h4 : acs_get_enabled st.acs = some "yes".toList) (h5 : st.par_filter = some par_filter) :
    cgi_test_reporting now transport st =
      if (build_metadata_items par_items par_filter none).1 = false then
        some (send_xml (some "Item Error".toList) none, [])
      else if (acs_run now transport st.acs
          (build_metadata_items par_items par_filter none).2 (some none)).ret = false then
        some (send_xml (some "Failure".toList)
          (acs_run now transport st.acs
            (build_metadata_items par_items par_filter none).2 (some none)).error.join,
          (acs_run now transport st.acs
            (build_metadata_items par_items par_filter none).2 (some none)).effects)
      else
        some (send_xml (some "Success".toList) (some "NA".toList),
          (acs_run now transport st.acs
            (build_metadata_items par_items par_filter none).2 (some none)).effects) := by
  have h3' : st.par_items ≠ some " ".toList := by
    rw [h3]; intro h; exact h3n (Option.some.inj h)
  have h4' : ¬ acs_get_enabled st.acs ≠ some "yes".toList := fun h => h h4
  unfold cgi_test_reporting
  rw [if_neg h1, if_neg h2, if_neg h3', if_neg h4']
  simp only [h3, h5]

theorem printf_s_cons (c : Char) (l : CStr) (arg : Option CStr) (h : c ≠ '%') :
    printf_s (c :: l) arg = c :: printf_s l arg := by
  conv_lhs => unfold printf_s
  split
  · rename_i heq; cases heq
  · rename_i heq
    simp only [List.cons.injEq] at heq
    exact absurd heq.1 h
  · rename_i heq
    simp only [List.cons.injEq] at heq
    obtain ⟨h1, h2⟩ := heq
    subst h1; subst h2
    rfl

theorem printf_s_append (l : CStr) (hl : '%' ∉ l) (rest : CStr) (arg : Option CStr) :
    printf_s (l ++ rest) arg = l ++ printf_s rest arg := by
  induction l with
  | nil => rfl
  | cons c cs ih =>
    have hc1 : c ≠ '%' := fun h => hl (by simp [h])
    have hcs : '%' ∉ cs := fun h => hl (by simp [h])
    rw [List.cons_append, printf_s_cons c _ arg hc1, ih hcs, List.cons_append]

theorem printf_s_param (name : CStr) (hn : '%' ∉ name) (arg : Option CStr) :
    printf_s ("<param name=\x27".toList ++ name ++ "\x27 value=\x27%s\x27/>".toList) arg =
      param_entry name (arg.getD "(null)".toList) := by
  have h2 : "<param name=\x27".toList ++ name ++ "\x27 value=\x27%s\x27/>".toList =
      ("<param name=\x27".toList ++ name ++ "\x27 value=\x27".toList) ++ "%s\x27/>".toList := by
    simp
  rw [h2, printf_s_append]
  · have h3 : printf_s "%s\x27/>".toList arg = arg.getD "(null)".toList ++ "\x27/>".toList := rfl
    rw [h3]
    unfold param_entry
    simp only [List.append_assoc]
  · intro h
    rcases List.mem_append.1 h with h | h
    · rcases List.mem_append.1 h with h | h
      · exact absurd h (by decide)
      · exact hn h
    · exact absurd h (by decide)

theorem send_xml_text (result error : Option CStr) :
    send_xml result error =
      ["Content-Type: text/xml; charset=utf-8; Cache-Control: no-cache\r\n\r\n".toList,
       "<?xml version=\"1.0\"?>\r\n".toList,
       "<settings>".toList,
       "<param name=\x27Result\x27 value=\x27".toList ++ result.getD "(null)".toList ++
         "\x27/>".toList,
       "<param name=\x27Error\x27 value=\x27".toList ++ error.getD "(null)".toList ++
         "\x27/>".toList,
       "</settings>".toList] := by
  have hr := printf_s_param "Result".toList (by decide) result
  have he := printf_s_param "Error".toList (by decide) error
  have h1 : "<param name=\x27".toList ++ "Result".toList ++ "\x27 value=\x27%s\x27/>".toList =
      "<param name=\x27Result\x27 value=\x27%s\x27/>".toList := by decide
  have h2 : "<param name=\x27".toList ++ "Error".toList ++ "\x27 value=\x27%s\x27/>".toList =
      "<param name=\x27Error\x27 value=\x27%s\x27/>".toList := by decide
  rw [h1] at hr
  rw [h2] at he
  unfold send_xml camera_http_sendXMLheader
  rw [hr, he]
  unfold param_entry
  have h3 : "<param name=\x27".toList ++ "Result".toList ++ "\x27 value=\x27".toList =
      "<param name=\x27Result\x27 value=\x27".toList := by decide
  have h4 : "<param name=\x27".toList ++ "Error".toList ++ "\x27 value=\x27".toList =
      "<param name=\x27Error\x27 value=\x27".toList := by decide
  rw [h3, h4]
  rfl

theorem hex_digit_unreserved (n : Nat) (h : n < 16) : is_unreserved (hex_digit n) = true := by
  interval_cases n <;> decide

theorem uri_escape_chars (v : CStr) : ∀ c ∈ uri_escape v, is_unreserved c = true ∨ c = '%' := by
  intro c hc
  unfold uri_escape at hc
  rw [List.mem_flatten] at hc
  obtain ⟨l, hl, hcl⟩ := hc
  obtain ⟨a, _, rfl⟩ := List.mem_map.1 hl
  by_cases hu : is_unreserved a = true
  · rw [if_pos hu] at hcl
    rw [List.mem_singleton] at hcl
    subst hcl
    exact Or.inl hu
  · rw [if_neg hu] at hcl
    simp only [List.mem_cons, List.mem_singleton, List.not_mem_nil, or_false] at hcl
    rcases hcl with h | h | h
    · exact Or.inr h
    · subst h; exact Or.inl (hex_digit_unreserved _ (Nat.mod_lt _ (by decide)))
    · subst h; exact Or.inl (hex_digit_unreserved _ (Nat.mod_lt _ (by decide)))

theorem lookup_insert {β : Type} (table : List (CStr × β)) (key : CStr) (value : β) :
    (g_hash_table_insert table key value).lookup key = some value := by
  induction table with
  | nil => simp [g_hash_table_insert, List.lookup]
  | cons p rest ih =>
    obtain ⟨k, v⟩ := p
    unfold g_hash_table_insert
    by_cases hk : k = key
    · rw [if_pos hk]
      subst hk
      simp [List.lookup]
    · rw [if_neg hk]
      have hb : (key == k) = false := by
        rw [beq_eq_false_iff_ne]; exact fun e => hk e.symm
      simp only [List.lookup, hb]
      exact ih

theorem toDigits_four (n : Nat) (h1 : 1000 ≤ n) (h2 : n < 10000) :
    Nat.toDigits 10 n =
      [Nat.digitChar (n / 1000), Nat.digitChar (n / 100 % 10), Nat.digitChar (n / 10 % 10),
       Nat.digitChar (n % 10)] := by
  obtain ⟨k, rfl⟩ : ∃ k, n = k + 4 := ⟨n - 4, by omega⟩
  have a1 : (k + 4) / 10 ≠ 0 := by omega
  have a2 : (k + 4) / 10 / 10 ≠ 0 := by omega
  have a3 : (k + 4) / 10 / 10 / 10 ≠ 0 := by omega
  have a4 : (k + 4) / 10 / 10 / 10 / 10 = 0 := by omega
  have b1 : (k + 4) / 10 % 10 = (k + 4) / 10 % 10 := rfl
  have b2 : (k + 4) / 10 / 10 % 10 = (k + 4) / 100 % 10 := by omega
  have b3 : (k + 4) / 10 / 10 / 10 % 10 = (k + 4) / 1000 := by omega
  simp only [Nat.toDigits, Nat.toDigitsCore, a1, a2, a3, a4, if_false, if_true, b2, b3]

theorem digit_value_digitChar (d : Nat) (h : d < 10) :
    digit_value (Nat.digitChar d) = d ∧ (Nat.digitChar d).isDigit = true := by
  interval_cases d <;> decide

theorem strftime_eq (t : tm) (hy : 1900 + t.tm_year ≤ 9999) :
    strftime_F_T t =
      [Nat.digitChar ((1900 + t.tm_year) / 1000), Nat.digitChar ((1900 + t.tm_year) / 100 % 10),
       Nat.digitChar ((1900 + t.tm_year) / 10 % 10), Nat.digitChar ((1900 + t.tm_year) % 10),
       '-', Nat.digitChar ((t.tm_mon + 1) / 10 % 10), Nat.digitChar ((t.tm_mon + 1) % 10),
       '-', Nat.digitChar (t.tm_mday / 10 % 10), Nat.digitChar (t.tm_mday % 10),
       ' ', Nat.digitChar (t.tm_hour / 10 % 10), Nat.digitChar (t.tm_hour % 10),
       ':', Nat.digitChar (t.tm_min / 10 % 10), Nat.digitChar (t.tm_min % 10),
       ':', Nat.digitChar (t.tm_sec / 10 % 10), Nat.digitChar (t.tm_sec % 10)] := by
  unfold strftime_F_T pad2
  rw [toDigits_four _ (by omega) (by omega)]
  rfl

theorem two_digits (n : Nat) (h : n < 100) :
    decimal_value [Nat.digitChar (n / 10 % 10), Nat.digitChar (n % 10)] = n := by
  have h1 := (digit_value_digitChar (n / 10 % 10) (Nat.mod_lt _ (by decide))).1
  have h2 := (digit_value_digitChar (n % 10) (Nat.mod_lt _ (by decide))).1
  simp only [decimal_value, List.foldl, h1, h2]
  omega

theorem four_digits (n : Nat) (h : n < 10000) :
    decimal_value [Nat.digitChar (n / 1000), Nat.digitChar (n / 100 % 10),
      Nat.digitChar (n / 10 % 10), Nat.digitChar (n % 10)] = n := by
  have h0 := (digit_value_digitChar (n / 1000) (by omega)).1
  have h1 := (digit_value_digitChar (n / 100 % 10) (Nat.mod_lt _ (by decide))).1
  have h2 := (digit_value_digitChar (n / 10 % 10) (Nat.mod_lt _ (by decide))).1
  have h3 := (digit_value_digitChar (n % 10) (Nat.mod_lt _ (by decide))).1
  simp only [decimal_value, List.foldl, h0, h1, h2, h3]
  omega

theorem read_timestamp_strftime (t : tm) (hy : 1900 + t.tm_year ≤ 9999) (hmon : t.tm_mon ≤ 11)
    (hday : t.tm_mday ≤ 31) (hh : t.tm_hour ≤ 23) (hm : t.tm_min ≤ 59) (hs : t.tm_sec ≤ 60) :
    read_timestamp (strftime_F_T t) =
      some (1900 + t.tm_year, t.tm_mon + 1, t.tm_mday, t.tm_hour, t.tm_min, t.tm_sec) := by
  rw [strftime_eq t hy]
  have d := fun (n : Nat) (h : n < 10) => (digit_value_digitChar n h).2
  have m10 : ∀ n : Nat, n % 10 < 10 := fun n => Nat.mod_lt _ (by decide)
  unfold read_timestamp
  simp only [List.all_cons, List.all_nil, d _ (m10 _), d ((1900 + t.tm_year) / 1000) (by omega),
    Bool.and_self, if_true, two_digits (t.tm_mon + 1) (by omega), two_digits t.tm_mday (by omega),
    two_digits t.tm_hour (by omega), two_digits t.tm_min (by omega),
    two_digits t.tm_sec (by omega), four_digits (1900 + t.tm_year) (by omega)]

theorem terminated_synthetic_pairs (names : List CStr)
    (hn : ∀ n ∈ names, n ≠ [] ∧ ';' ∉ n) (hlen : names.length < MAX_ITEMS) :
    build_metadata_items (terminated names) " ".toList none =
      (true, names.map (fun n => ⟨capitalize n, "TEST".toList⟩)) := by
  have hres : ∀ e ∈ considered_items (terminated names), item_value none e ≠ none := by
    intro e _ h; cases h
  rw [build_resolved (terminated names) " ".toList none hres, parse_filter_sentinel,
    considered_items_terminated names hn hlen]
  rfl

/-! ## The claims C11 to C20 -/

/-- C12: when the four tests pass and `build_metadata_items` without an event record
returns `TRUE` with a list, the answer follows the blocking `acs_run` on that list: a
return value `TRUE` gives Result "Success" with Error "NA", a return value `FALSE` gives
Result "Failure" with the error text `acs_run` stored.  For a ready configuration a
transport output with status 401 gives "Failure" and "Unauthorized", one with status 200
gives "Success" and "NA".  The answer is the XML header, the opening tag, the `param`
element named Result, the `param` element named Error and the closing tag, in this
order. -/
theorem test_reporting_result (now : Option tm) (transport : CStr → Option CStr) (st : App)
    (par_items par_filter : CStr) (metadata_items : List mdp_item_pair)
    (h1 : st.par_analytic ≠ some " ".toList) (h2 : st.par_category ≠ some " ".toList)
    (h3 : st.par_items = some par_items) (h3n : par_items ≠ " ".toList)
    (h4 : acs_get_enabled st.acs = some "yes".toList) (h5 : st.par_filter = some par_filter)
    (hx : build_metadata_items par_items par_filter none = (true, metadata_items)) :
    ((acs_run now transport st.acs metadata_items (some none)).ret = true →
      cgi_test_reporting now transport st =
        some (send_xml (some "Success".toList) (some "NA".toList),
          (acs_run now transport st.acs metadata_items (some none)).effects)) ∧
    ((acs_run now transport st.acs metadata_items (some none)).ret = false →
      cgi_test_reporting now transport st =
        some (send_xml (some "Failure".toList)
            (acs_run now transport st.acs metadata_items (some none)).error.join,
          (acs_run now transport st.acs metadata_items (some none)).effects)) ∧
    (∀ (h : acs) (t : tm) (body : CStr), st.acs = some h → now = some t →
      is_initialized (some h) = true → (strftime_F_T t).length < 200 →
      transport (acs_cmd h (strftime_F_T t) metadata_items) =
        some (body ++ ("HTTP:".toList ++ "401".toList)) →
      cgi_test_reporting now transport st =
        some (send_xml (some "Failure".toList) (some "Unauthorized".toList),
          [Effect.spawn_sync (acs_cmd h (strftime_F_T t) metadata_items)])) ∧
    (∀ (h : acs) (t : tm) (body : CStr), st.acs = some h → now = some t →
      is_initialized (some h) = true → (strftime_F_T t).length < 200 →
      transport (acs_cmd h (strftime_F_T t) metadata_items) =
        some (body ++ ("HTTP:".toList ++ "200".toList)) →
      cgi_test_reporting now transport st =
        some (send_xml (some "Success".toList) (some "NA".toList),
          [Effect.spawn_sync (acs_cmd h (strftime_F_T t) metadata_items)])) ∧
    (∀ result error : Option CStr, send_xml result error =
      ["Content-Type: text/xml; charset=utf-8; Cache-Control: no-cache\r\n\r\n".toList,
       "<?xml version=\"1.0\"?>\r\n".toList,
       "<settings>".toList,
       "<param name=\x27Result\x27 value=\x27".toList ++ result.getD "(null)".toList ++
         "\x27/>".toList,
       "<param name=\x27Error\x27 value=\x27".toList ++ error.getD "(null)".toList ++
         "\x27/>".toList,
       "</settings>".toList]) := by
  have he := cgi_test_reporting_eq now transport st par_items par_filter h1 h2 h3 h3n h4 h5
  rw [hx] at he
  simp only [Bool.true_eq_false, if_false] at he
  refine ⟨?_, ?_, ?_, ?_, send_xml_text⟩
  · intro hr
    rw [he, hr]
    simp
  · intro hr
    rw [he, if_pos hr]
  · intro h t body hacs hnow hready htime hout
    rw [he, hacs, hnow, acs_run_sync_eq t transport h metadata_items none hready htime, hout,
      check_status body "401".toList none (by decide) (by decide)]
    rfl
  · intro h t body hacs hnow hready htime hout
    rw [he, hacs, hnow, acs_run_sync_eq t transport h metadata_items none hready htime, hout,
      check_status body "200".toList none (by decide) (by decide)]
    rfl

/-- C12, scenario S3: items "plate;count;" with the configuration of S1 give
"Failure", "Unauthorized" on status 401 and "Success", "NA" on status 200. -/
theorem test_reporting_result_witness :
    cgi_test_reporting (some tm_S1) transport_401 app_S3 =
      some (["Content-Type: text/xml; charset=utf-8; Cache-Control: no-cache\r\n\r\n".toList,
          "<?xml version=\"1.0\"?>\r\n".toList,
          "<settings>".toList,
          "<param name=\x27Result\x27 value=\x27Failure\x27/>".toList,
          "<param name=\x27Error\x27 value=\x27Unauthorized\x27/>".toList,
          "</settings>".toList],
        [Effect.spawn_sync (acs_cmd cfg_S1 (strftime_F_T tm_S1)
          [⟨"Plate".toList, "TEST".toList⟩, ⟨"Count".toList, "TEST".toList⟩])]) ∧
    cgi_test_reporting (some tm_S1) transport_200 app_S3 =
      some (["Content-Type: text/xml; charset=utf-8; Cache-Control: no-cache\r\n\r\n".toList,
          "<?xml version=\"1.0\"?>\r\n".toList,
          "<settings>".toList,
          "<param name=\x27Result\x27 value=\x27Success\x27/>".toList,
          "<param name=\x27Error\x27 value=\x27NA\x27/>".toList,
          "</settings>".toList],
        [Effect.spawn_sync (acs_cmd cfg_S1 (strftime_F_T tm_S1)
          [⟨"Plate".toList, "TEST".toList⟩, ⟨"Count".toList, "TEST".toList⟩])]) :=
  ⟨((test_reporting_result (some tm_S1) transport_401 app_S3 "plate;count;".toList " ".toList
      [⟨"Plate".toList, "TEST".toList⟩, ⟨"Count".toList, "TEST".toList⟩]
      (by decide) (by decide) rfl (by decide) (by decide) rfl (by decide)).2.2.1
      cfg_S1 tm_S1 "\x7b\"msg\":\"HTTP:200\"\x7d".toList rfl rfl (by decide) (by decide)
      rfl).trans (by decide),
   ((test_reporting_result (some tm_S1) transport_200 app_S3 "plate;count;".toList " ".toList
      [⟨"Plate".toList, "TEST".toList⟩, ⟨"Count".toList, "TEST".toList⟩]
      (by decide) (by decide) rfl (by decide) (by decide) rfl (by decide)).2.2.2.1
      cfg_S1 tm_S1 [] rfl rfl (by decide) (by decide) rfl).trans (by decide)⟩

/-- C13: for an analytic other than " " `metadata_event_subscribe` requests one
subscription whose key/value set has topic0 "CameraApplicationPlatform" and topic1 equal to
the analytic, and has topic2 equal to the category exactly when the category is neither
empty nor "Uncategorized" (otherwise there is no topic2 key).  For the analytic " " nothing
is requested and 0 is returned. -/
theorem subscribe_topic (ax_event_handler_subscribe : List key_value → subscribe_result)
    (st : App) (analytic category : CStr)
    (ha : st.par_analytic = some analytic) (hc : st.par_category = some category) :
    (analytic = " ".toList →
      metadata_event_subscribe ax_event_handler_subscribe st = (0, [])) ∧
    (analytic ≠ " ".toList →
      ∃ key_value_set : List key_value,
        (metadata_event_subscribe ax_event_handler_subscribe st).2 =
          [Effect.subscribe key_value_set] ∧
        topic_value key_value_set "topic0".toList =
          some (some "CameraApplicationPlatform".toList) ∧
        topic_value key_value_set "topic1".toList = some (some analytic) ∧
        (topic_value key_value_set "topic2".toList = some (some category) ↔
          (category ≠ [] ∧ category ≠ "Uncategorized".toList)) ∧
        (¬ (category ≠ [] ∧ category ≠ "Uncategorized".toList) →
          topic_value key_value_set "topic2".toList = none) ∧
        key_value_set.length ≤ 3) := by
  constructor
  · intro h
    unfold metadata_event_subscribe
    rw [ha, h, if_pos rfl]
  · intro h
    have h' : st.par_analytic ≠ some " ".toList := by
      rw [ha]; intro e; exact h (Option.some.inj e)
    unfold metadata_event_subscribe
    rw [if_neg h']
    by_cases hcat : category ≠ [] ∧ category ≠ "Uncategorized".toList
    · have hcat' : st.par_category ≠ some [] ∧ st.par_category ≠ some "Uncategorized".toList := by
        rw [hc]
        exact ⟨fun e => hcat.1 (Option.some.inj e), fun e => hcat.2 (Option.some.inj e)⟩
      rw [if_pos hcat']
      refine ⟨_, rfl, rfl, ?_, ?_, ?_, by simp⟩
      · rw [ha]; rfl
      · rw [hc]; exact ⟨fun _ => hcat, fun _ => rfl⟩
      · intro hn; exact absurd hcat hn
    · have hcat' : ¬ (st.par_category ≠ some [] ∧
          st.par_category ≠ some "Uncategorized".toList) := by
        rw [hc]
        intro hh
        exact hcat ⟨fun e => hh.1 (by rw [e]), fun e => hh.2 (by rw [e])⟩
      rw [if_neg hcat']
      refine ⟨_, rfl, rfl, ?_, ?_, ?_, by simp⟩
      · rw [ha]; rfl
      · exact ⟨fun e => (by cases e), fun hh => absurd hh hcat⟩
      · intro _; rfl

/-- C13, witness: the category Camera1Profile1 is added as topic2, the category
Uncategorized is not, and the analytic " " requests nothing. -/
theorem subscribe_topic_witness :
    (metadata_event_subscribe subscribe_ok
        { app_S1 " ".toList with par_category := some "Camera1Profile1".toList }).2 =
      [Effect.subscribe
        [⟨"topic0".toList, some "tnsaxis".toList, some "CameraApplicationPlatform".toList⟩,
         ⟨"topic1".toList, none, some "LPR".toList⟩,
         ⟨"topic2".toList, none, some "Camera1Profile1".toList⟩]] ∧
    (metadata_event_subscribe subscribe_ok (app_S1 " ".toList)).2 =
      [Effect.subscribe
        [⟨"topic0".toList, some "tnsaxis".toList, some "CameraApplicationPlatform".toList⟩,
         ⟨"topic1".toList, none, some "LPR".toList⟩]] ∧
    metadata_event_subscribe subscribe_ok
        { app_S1 " ".toList with par_analytic := some " ".toList } = (0, []) :=
  ⟨by decide, by decide,
   (subscribe_topic subscribe_ok { app_S1 " ".toList with par_analytic := some " ".toList }
      " ".toList "Uncategorized".toList rfl rfl).1 rfl⟩

/-- C14: `set_analytic` called with the stored analytic issues no unsubscribe and no
subscribe and leaves the whole state, the stored analytic and the subscription id
included, as it was; the same holds for `set_category` with the stored category. -/
theorem set_current_value_no_resubscribe
    (ax_event_handler_subscribe : List key_value → subscribe_result) (st : App) :
    set_analytic ax_event_handler_subscribe st st.par_analytic = (st, []) ∧
    set_category ax_event_handler_subscribe st st.par_category = (st, []) := by
  constructor
  · unfold set_analytic
    rw [if_neg (fun h => h rfl)]
  · unfold set_category
    rw [if_neg (fun h => h rfl)]

/-- C15, counterexample: with an empty items string, the filter " " and the
configuration of S1, `build_metadata_items` returns `TRUE` with the empty list, and
`metadata_event_callback` spawns the command (with an empty data member) and updates the
overlay. -/
theorem empty_item_list_is_sent :
    build_metadata_items [] " ".toList (some event_S1) = (true, []) ∧
    metadata_event_callback (some tm_S1) (fun _ => none) app_no_items (some ⟨some event_S1⟩) =
      some (app_no_items,
        [Effect.spawn_async (acs_cmd cfg_S1 "2024-01-02 03:04:05".toList []),
         Effect.overlay_set_data [] 3000 (some "LPR".toList) (some "Uncategorized".toList),
         Effect.event_free]) := by
  decide

/-- C15, as amended: when `build_metadata_items` returns `FALSE` the event is dropped:
`metadata_event_callback` only frees it, spawns nothing and does not touch the overlay.
When it returns `TRUE` with the empty list, which is what it returns when the items
string has no considered entry and the filter is " ", the callback still calls `acs_run`
and `overlay_set_data` with the empty list; only the state stays as it was. -/
theorem failed_extraction_drops_event (now : Option tm) (transport : CStr → Option CStr)
    (st : App) (kvs : AXEventKeyValueSet) (par_items par_filter : CStr)
    (hitems : st.par_items = some par_items) (hfilter : st.par_filter = some par_filter) :
    ((build_metadata_items par_items par_filter (some kvs)).1 = false →
      metadata_event_callback now transport st (some ⟨some kvs⟩) =
        some (st, [Effect.event_free])) ∧
    (build_metadata_items par_items par_filter (some kvs) = (true, []) →
      metadata_event_callback now transport st (some ⟨some kvs⟩) =
        some (st, (acs_run now transport st.acs [] none).effects ++
          [Effect.overlay_set_data [] 3000 st.par_analytic st.par_category,
           Effect.event_free])) ∧
    (considered_items par_items = [] → par_filter = " ".toList →
      build_metadata_items par_items par_filter (some kvs) = (true, [])) := by
  have hcb := metadata_event_callback_eq now transport st kvs par_items par_filter hitems hfilter
  refine ⟨?_, ?_, ?_⟩
  · intro h
    rw [hcb, if_pos h]
  · intro h
    rw [hcb, h]
    simp
  · intro hc hf
    have hres : ∀ e ∈ considered_items par_items, item_value (some kvs) e ≠ none := by
      rw [hc]; intro e he; cases he
    rw [build_resolved par_items par_filter (some kvs) hres, hf, parse_filter_sentinel, hc]
    rfl

/-- C15, witness: the event of S2 with the state of S1 is only freed. -/
theorem failed_extraction_drops_event_witness :
    metadata_event_callback (some tm_S1) (fun _ => none) (app_S1 " ".toList)
        (some ⟨some event_S2⟩) =
      some (app_S1 " ".toList, [Effect.event_free]) :=
  (failed_extraction_drops_event (some tm_S1) (fun _ => none) (app_S1 " ".toList) event_S2
    "plate;country;".toList " ".toList rfl rfl).1 (by decide)

/-- C17: `cgi_settings_get` writes the XML header, the opening tag, nine `param`
entries in the order ServerAddress, SourceID, Username, Password, Enabled, Analytic,
Category, Items, DebugEnabled, each with the URL-encoded value of its field, and the
closing tag.  The content filter does not reach the output, and an encoded value holds
only unreserved characters and `%`. -/
theorem settings_get_entries (st : App) (h : acs)
    (server source user password enabled analytic category items debug : CStr)
    (hacs : st.acs = some h) (h1 : h.ipname = some server) (h2 : h.source = some source)
    (h3 : h.username = some user) (h4 : h.password = some password)
    (h5 : h.enabled = some enabled) (h6 : st.par_analytic = some analytic)
    (h7 : st.par_category = some category) (h8 : st.par_items = some items)
    (h9 : st.par_debug_enabled = some debug) :
    cgi_settings_get st =
        camera_http_sendXMLheader ++ ["<settings>".toList] ++
          [("ServerAddress", server), ("SourceID", source), ("Username", user),
           ("Password", password), ("Enabled", enabled), ("Analytic", analytic),
           ("Category", category), ("Items", items), ("DebugEnabled", debug)].map
            (fun p => param_entry p.1.toList (uri_escape p.2)) ++
          ["</settings>".toList] ∧
    (∀ par_filter,
      cgi_settings_get { st with par_filter := par_filter } = cgi_settings_get st) ∧
    (∀ (v : CStr) (c : Char), c ∈ uri_escape v → (is_unreserved c = true ∨ c = '%')) := by
  refine ⟨?_, fun _ => rfl, uri_escape_chars⟩
  have e1 : printf_s "<param name=\x27ServerAddress\x27 value=\x27%s\x27/>".toList
      (some (uri_escape server)) = param_entry "ServerAddress".toList (uri_escape server) :=
    printf_s_param "ServerAddress".toList (by decide) (some (uri_escape server))
  have e2 : printf_s "<param name=\x27SourceID\x27 value=\x27%s\x27/>".toList
      (some (uri_escape source)) = param_entry "SourceID".toList (uri_escape source) :=
    printf_s_param "SourceID".toList (by decide) (some (uri_escape source))
  have e3 : printf_s "<param name=\x27Username\x27 value=\x27%s\x27/>".toList
      (some (uri_escape user)) = param_entry "Username".toList (uri_escape user) :=
    printf_s_param "Username".toList (by decide) (some (uri_escape user))
  have e4 : printf_s "<param name=\x27Password\x27 value=\x27%s\x27/>".toList
      (some (uri_escape password)) = param_entry "Password".toList (uri_escape password) :=
    printf_s_param "Password".toList (by decide) (some (uri_escape password))
  have e5 : printf_s "<param name=\x27Enabled\x27 value=\x27%s\x27/>".toList
      (some (uri_escape enabled)) = param_entry "Enabled".toList (uri_escape enabled) :=
    printf_s_param "Enabled".toList (by decide) (some (uri_escape enabled))
  have e6 : printf_s "<param name=\x27Analytic\x27 value=\x27%s\x27/>".toList
      (some (uri_escape analytic)) = param_entry "Analytic".toList (uri_escape analytic) :=
    printf_s_param "Analytic".toList (by decide) (some (uri_escape analytic))
  have e7 : printf_s "<param name=\x27Category\x27 value=\x27%s\x27/>".toList
      (some (uri_escape category)) = param_entry "Category".toList (uri_escape category) :=
    printf_s_param "Category".toList (by decide) (some (uri_escape category))
  have e8 : printf_s "<param name=\x27Items\x27 value=\x27%s\x27/>".toList
      (some (uri_escape items)) = param_entry "Items".toList (uri_escape items) :=
    printf_s_param "Items".toList (by decide) (some (uri_escape items))
  have e9 : printf_s "<param name=\x27DebugEnabled\x27 value=\x27%s\x27/>".toList
      (some (uri_escape debug)) = param_entry "DebugEnabled".toList (uri_escape debug) :=
    printf_s_param "DebugEnabled".toList (by decide) (some (uri_escape debug))
  unfold cgi_settings_get acs_get_ipname acs_get_source acs_get_username acs_get_password
    acs_get_enabled g_uri_escape_string
  rw [hacs, h6, h7, h8, h9]
  simp only [Option.some_bind, h1, h2, h3, h4, h5, Option.map_some']
  rw [e1, e2, e3, e4, e5, e6, e7, e8, e9]
  simp only [List.map, List.append_assoc, List.cons_append, List.nil_append]

/-- C17, witness: the state of S1; the items "plate;country;" are written as
`plate%3Bcountry%3B`. -/
theorem settings_get_entries_witness :
    cgi_settings_get (app_S1 "plate=ABC".toList) =
      camera_http_sendXMLheader ++
        ["<settings>".toList,
         "<param name=\x27ServerAddress\x27 value=\x2710.0.0.1\x27/>".toList,
         "<param name=\x27SourceID\x27 value=\x27S\x27/>".toList,
         "<param name=\x27Username\x27 value=\x27u\x27/>".toList,
         "<param name=\x27Password\x27 value=\x27p\x27/>".toList,
         "<param name=\x27Enabled\x27 value=\x27yes\x27/>".toList,
         "<param name=\x27Analytic\x27 value=\x27LPR\x27/>".toList,
         "<param name=\x27Category\x27 value=\x27Uncategorized\x27/>".toList,
         "<param name=\x27Items\x27 value=\x27plate%3Bcountry%3B\x27/>".toList,
         "<param name=\x27DebugEnabled\x27 value=\x27no\x27/>".toList,
         "</settings>".toList] :=
  (settings_get_entries (app_S1 "plate=ABC".toList) cfg_S1 "10.0.0.1".toList "S".toList
    "u".toList "p".toList "yes".toList "LPR".toList "Uncategorized".toList
    "plate;country;".toList "no".toList rfl rfl rfl rfl rfl rfl rfl rfl rfl rfl).1.trans
    (by decide)

/-- C18, counterexample: with the callback `set_items` registered for Items and the
value "a;" stored, `camera_param_set` of Items to "a;" invokes the callback, and a second
identical write invokes it again. -/
theorem idempotent_write_notifies_again :
    (camera_param_setCallback params_items "Items".toList (some cb_set_items)).2.values.lookup
        "Items".toList = some "a;".toList ∧
    (camera_param_set (camera_param_setCallback params_items "Items".toList
        (some cb_set_items)).2 "Items".toList "a;".toList).2.2 =
      [(cb_set_items, "a;".toList)] ∧
    (camera_param_set (camera_param_set (camera_param_setCallback params_items "Items".toList
        (some cb_set_items)).2 "Items".toList "a;".toList).2.1 "Items".toList "a;".toList).2.2 =
      [(cb_set_items, "a;".toList)] := by
  decide

/-- C18, as amended: once a callback is registered for a name with
`camera_param_setCallback`, `camera_param_set` of that name stores the value, returns 1
and invokes the callback exactly once with the new value, whatever value was stored
before (an equal one included).  When no callback is registered for the name, none is
invoked and 0 is returned. -/
theorem param_set_notifies_registered_callback (c : camera_params)
    (table : List (CStr × Option CAMERA_PARAM_callback)) (name value old : CStr)
    (theCallback : CAMERA_PARAM_callback)
    (hh : c.handler_application_param = true) (ht : c.table_application_param = some table)
    (hold : c.values.lookup name = some old) :
    (camera_param_set (camera_param_setCallback c name (some theCallback)).2 name value).2.2 =
      [(theCallback, value)] ∧
    (camera_param_set (camera_param_setCallback c name (some theCallback)).2 name value).1 = 1 ∧
    (camera_param_set (camera_param_setCallback c name (some theCallback)).2
      name value).2.1.values.lookup name = some value ∧
    (table.lookup name = none →
      (camera_param_set c name value).2.2 = [] ∧ (camera_param_set c name value).1 = 0) := by
  have hf : ¬ c.handler_application_param = false := by rw [hh]; decide
  have hn : ¬ (c.values.lookup name).isNone = true := by rw [hold]; simp
  have hs : camera_param_setCallback c name (some theCallback) =
      (1, ⟨c.handler_application_param,
          some (g_hash_table_insert table name (some theCallback)), c.values⟩) := by
    unfold camera_param_setCallback
    rw [if_neg hf, ht]
    rfl
  have hset : camera_param_set (camera_param_setCallback c name (some theCallback)).2
      name value =
      (1, ⟨c.handler_application_param,
          some (g_hash_table_insert table name (some theCallback)),
          g_hash_table_insert c.values name value⟩, [(theCallback, value)]) := by
    rw [hs]
    unfold camera_param_set
    simp only [if_neg hf, if_neg hn, lookup_insert, Option.join]
    rfl
  rw [hset]
  refine ⟨rfl, rfl, lookup_insert _ _ _, ?_⟩
  intro hl
  unfold camera_param_set
  simp only [if_neg hf, if_neg hn, ht, hl, Option.join]
  exact ⟨rfl, rfl⟩

/-- C18, witness: Items is stored as "a;" and written as "a;". -/
theorem param_set_notifies_registered_callback_witness :
    (camera_param_set (camera_param_setCallback params_items "Items".toList
        (some cb_set_items)).2 "Items".toList "a;".toList).2.2 =
      [(cb_set_items, "a;".toList)] :=
  (param_set_notifies_registered_callback params_items [] "Items".toList "a;".toList
    "a;".toList cb_set_items rfl rfl (by decide)).1

/-- C19: for a ready configuration and a time from `gmtime` whose year is at most 9999,
the command `acs_run` spawns, blocking or not, carries the envelope whose occurrenceTime is
the text `strftime` writes and whose source is the configured source id.  That text has the
form `YYYY-MM-DD HH:MM:SS` and shows the year, month, day, hour, minute and second of the
time. -/
theorem envelope_time_and_source (t : tm) (transport : CStr → Option CStr) (h : acs)
    (metadata_items : List mdp_item_pair) (source : CStr) (e : Option CStr)
    (hready : is_initialized (some h) = true) (hsrc : h.source = some source)
    (hy : 1900 + t.tm_year ≤ 9999) (hmon : t.tm_mon ≤ 11) (hday : t.tm_mday ≤ 31)
    (hh : t.tm_hour ≤ 23) (hm : t.tm_min ≤ 59) (hs : t.tm_sec ≤ 60) :
    (acs_run (some t) transport (some h) metadata_items none).effects =
      [Effect.spawn_async (METABASE
        (jSON_head (strftime_F_T t) source ++ jSON_items metadata_items ++
          "\x7d\x7d\x7d".toList)
        (h.ipname.getD []) (h.username.getD []) (h.password.getD []))] ∧
    (acs_run (some t) transport (some h) metadata_items (some e)).effects =
      [Effect.spawn_sync (METABASE
        (jSON_head (strftime_F_T t) source ++ jSON_items metadata_items ++
          "\x7d\x7d\x7d".toList)
        (h.ipname.getD []) (h.username.getD []) (h.password.getD []))] ∧
    read_timestamp (strftime_F_T t) =
      some (1900 + t.tm_year, t.tm_mon + 1, t.tm_mday, t.tm_hour, t.tm_min, t.tm_sec) ∧
    jSON_head (strftime_F_T t) source =
      "\x7b ".toList ++ List.replicate 12 ' ' ++ "\"addExternalDataRequest\": ".toList ++
        List.replicate 16 ' ' ++ "\x7b \"occurrenceTime\": \"".toList ++ strftime_F_T t ++
        "\",".toList ++ List.replicate 18 ' ' ++ "\"source\": \"".toList ++ source ++
        "\",".toList ++ List.replicate 18 ' ' ++ "\"externalDataType\": ".toList ++
        List.replicate 18 ' ' ++ "\"PointOfSales\", \"data\": \x7b".toList := by
  have hlen : (strftime_F_T t).length < 200 := by
    rw [strftime_eq t hy]; simp
  refine ⟨?_, ?_, read_timestamp_strftime t hy hmon hday hh hm hs, rfl⟩
  · rw [acs_run_async_eq t transport h metadata_items hready hlen]
    simp only [acs_cmd, jSON_string, hsrc, Option.getD_some]
  · rw [acs_run_sync_eq t transport h metadata_items e hready hlen]
    simp only [acs_cmd, jSON_string, hsrc, Option.getD_some]

/-- C19, witness: the time 2024-01-02 03:04:05 UTC and the source id "S". -/
theorem envelope_time_and_source_witness :
    read_timestamp (strftime_F_T tm_S1) = some (2024, 1, 2, 3, 4, 5) ∧
    strftime_F_T tm_S1 = "2024-01-02 03:04:05".toList ∧
    (acs_run (some tm_S1) (fun _ => none) (some cfg_S1) items_S1 none).effects =
      [Effect.spawn_async (METABASE
        (jSON_head "2024-01-02 03:04:05".toList "S".toList ++ jSON_items items_S1 ++
          "\x7d\x7d\x7d".toList)
        "10.0.0.1".toList "u".toList "p".toList)] :=
  ⟨(envelope_time_and_source tm_S1 (fun _ => none) cfg_S1 items_S1 "S".toList none
      (by decide) rfl (by decide) (by decide) (by decide) (by decide) (by decide)
      (by decide)).2.2.1,
   by decide, by decide⟩

/-- C20, the code at twenty names a, ..., t, each followed by a semicolon: without an
event record the twentieth name returned is `T;`, not `T`, and with an event record
that carries all twenty names the extraction fails: the twentieth token of
`g_strsplit (par_items, ";", MAX_ITEMS)` is `t;`. -/
theorem terminated_list_of_20_names :
    names_a_t.length = 20 ∧
    terminated names_a_t = "a;b;c;d;e;f;g;h;i;j;k;l;m;n;o;p;q;r;s;t;".toList ∧
    build_metadata_items (terminated names_a_t) " ".toList none =
      (true, ["A", "B", "C", "D", "E", "F", "G", "H", "I", "J", "K", "L", "M", "N", "O", "P",
        "Q", "R", "S", "T;"].map (fun n => ⟨n.toList, "TEST".toList⟩)) ∧
    (build_metadata_items (terminated names_a_t) " ".toList none).2.map (fun p => p.name) ≠
      names_a_t.map capitalize ∧
    (∀ n ∈ names_a_t, item_value (some event_a_t) n = some "x".toList) ∧
    build_metadata_items (terminated names_a_t) " ".toList (some event_a_t) = (false, []) := by
  decide

/-! ## Lemmas for the empty entry, the event system and the stored message -/

/-- The outcome of `build_metadata_items` depends on the items string through its
considered entries only, and on the event through the values of those entries only. -/
theorem build_congr (i1 i2 par_filter : CStr) (k1 k2 : Option AXEventKeyValueSet)
    (hc : considered_items i1 = considered_items i2)
    (hv : ∀ e ∈ considered_items i1, item_value k1 e = item_value k2 e) :
    build_metadata_items i1 par_filter k1 = build_metadata_items i2 par_filter k2 := by
  by_cases h : ∀ e ∈ considered_items i1, item_value k1 e ≠ none
  · have h2 : ∀ e ∈ considered_items i2, item_value k2 e ≠ none := by
      intro e he
      rw [← hc] at he
      rw [← hv e he]
      exact h e he
    rw [build_resolved i1 par_filter k1 h, build_resolved i2 par_filter k2 h2, ← hc]
    have hany : (considered_items i1).any (fun e =>
          decide ((parse_filter par_filter).2.1 = some e ∧
            (parse_filter par_filter).2.2 = item_value k1 e)) =
        (considered_items i1).any (fun e =>
          decide ((parse_filter par_filter).2.1 = some e ∧
            (parse_filter par_filter).2.2 = item_value k2 e)) := by
      have hgen : ∀ l : List CStr, (∀ e ∈ l, item_value k1 e = item_value k2 e) →
          l.any (fun e => decide ((parse_filter par_filter).2.1 = some e ∧
            (parse_filter par_filter).2.2 = item_value k1 e)) =
          l.any (fun e => decide ((parse_filter par_filter).2.1 = some e ∧
            (parse_filter par_filter).2.2 = item_value k2 e)) := by
        intro l
        induction l with
        | nil => intro _; rfl
        | cons a as ih =>
          intro hl
          simp only [List.any_cons]
          rw [hl a (by simp), ih (fun e he => hl e (by simp [he]))]
      exact hgen _ hv
    have hmap : (considered_items i1).map (item_pair_of k1) =
        (considered_items i1).map (item_pair_of k2) := by
      apply List.map_congr_left
      intro e he
      simp only [item_pair_of, hv e he]
    rw [hany, hmap]
  · push_neg at h
    obtain ⟨e, he, hnone⟩ := h
    rw [build_unresolved i1 par_filter k1 ⟨e, he, hnone⟩,
      build_unresolved i2 par_filter k2 ⟨e, hc ▸ he, by rw [← hv e he]; exact hnone⟩]

theorem g_strsplit_loop_empty_entry (names : List CStr) (rest : CStr)
    (hn : ∀ n ∈ names, ';' ∉ n) :
    ∀ m : Nat, names.length + 1 < m →
      ∃ tail, g_strsplit_loop [';'] m (terminated names ++ ';' :: rest) =
        names ++ [] :: tail := by
  induction names with
  | nil =>
    intro m hm
    match m, hm with
    | k + 2, _ =>
      refine ⟨g_strsplit_loop [';'] (k + 1) rest, ?_⟩
      have e : terminated [] ++ ';' :: rest = [] ++ ';' :: rest := rfl
      rw [e]
      conv_lhs => unfold g_strsplit_loop
      rw [strstr_split_char ';' [] rest (by simp)]
      rfl
  | cons a as ih =>
    intro m hm
    match m, hm with
    | 1, hm => simp at hm
    | k + 2, hm =>
      have ha : ';' ∉ a := hn a (by simp)
      have has : ∀ n ∈ as, ';' ∉ n := fun n h => hn n (by simp [h])
      have e : terminated (a :: as) ++ ';' :: rest =
          a ++ ';' :: (terminated as ++ ';' :: rest) := by
        simp [terminated]
      obtain ⟨tail, ht⟩ := ih has (k + 1) (by simp at hm; omega)
      refine ⟨tail, ?_⟩
      rw [e]
      unfold g_strsplit_loop
      rw [strstr_split_char ';' a _ ha]
      simp only [List.cons_append]
      rw [ht]

theorem considered_items_empty_entry (names : List CStr) (rest : CStr)
    (hn : ∀ n ∈ names, n ≠ [] ∧ ';' ∉ n) (hlen : names.length + 1 < MAX_ITEMS) :
    considered_items (terminated names ++ ';' :: rest) = names := by
  unfold considered_items g_strsplit
  rw [if_neg (by simp)]
  have h2 : (if (MAX_ITEMS : Int) < 1 then G_MAXINT else (MAX_ITEMS : Int).toNat) = MAX_ITEMS := by
    decide
  have h3 : ";".toList = [';'] := rfl
  obtain ⟨tail, ht⟩ := g_strsplit_loop_empty_entry names rest (fun n h => (hn n h).2)
    MAX_ITEMS hlen
  rw [h2, h3, ht]
  unfold considered
  rw [List.take_append_eq_append_take]
  have h4 : names.take MAX_ITEMS = names := List.take_of_length_le (by omega)
  have h5 : MAX_ITEMS - names.length = (MAX_ITEMS - names.length - 1) + 1 := by omega
  rw [h4, h5, List.take_succ_cons, List.takeWhile_append_of_pos]
  · simp [List.takeWhile]
  · intro n h; simpa using (hn n h).1

theorem items_loop_empty_entry (kvs : Option AXEventKeyValueSet) (fk fv : Option CStr)
    (post : List CStr) :
    ∀ (pre : List CStr) (n : Nat) (cm : Bool) (acc : List mdp_item_pair),
      items_loop kvs fk fv n (pre ++ [] :: post) cm acc = items_loop kvs fk fv n pre cm acc := by
  intro pre
  induction pre with
  | nil =>
    intro n cm acc
    cases n with
    | zero => rfl
    | succ n => simp [items_loop]
  | cons d ds ih =>
    intro n cm acc
    cases n with
    | zero => rfl
    | succ n =>
      simp only [List.cons_append]
      unfold items_loop
      by_cases hd : d = []
      · simp only [if_pos hd]
      · simp only [if_neg hd]
        cases item_value kvs d with
        | none => rfl
        | some v => simp only [ih]

/-- An empty entry ends the entries.  In the vector of tokens the `for` loop of
`build_metadata_items` leaves at the first empty token, so the tokens after it change
nothing.  For an items string that starts with fewer than `MAX_ITEMS - 1` names (none
empty, none with a semicolon), each followed by a semicolon, and then has an empty entry,
the considered entries are these names whatever text follows; the extraction gives the
same result as over the names alone, and it does not depend on what the event holds under
any other key. -/
theorem empty_entry_ignored (names : List CStr) (rest par_filter : CStr)
    (kvs kvs2 : Option AXEventKeyValueSet)
    (hn : ∀ n ∈ names, n ≠ [] ∧ ';' ∉ n) (hlen : names.length + 1 < MAX_ITEMS)
    (hv : ∀ n ∈ names, item_value kvs2 n = item_value kvs n) :
    (∀ (fk fv : Option CStr) (pre post : List CStr) (n : Nat) (cm : Bool)
        (acc : List mdp_item_pair),
      items_loop kvs fk fv n (pre ++ [] :: post) cm acc =
        items_loop kvs fk fv n pre cm acc) ∧
    considered_items (terminated names ++ ';' :: rest) = names ∧
    build_metadata_items (terminated names ++ ';' :: rest) par_filter kvs =
      build_metadata_items (terminated names) par_filter kvs ∧
    build_metadata_items (terminated names ++ ';' :: rest) par_filter kvs2 =
      build_metadata_items (terminated names ++ ';' :: rest) par_filter kvs := by
  have hc := considered_items_empty_entry names rest hn hlen
  have hc2 := considered_items_terminated names hn (by omega)
  refine ⟨fun fk fv pre post n cm acc => items_loop_empty_entry kvs fk fv post pre n cm acc,
    hc, ?_, ?_⟩
  · exact build_congr _ _ par_filter kvs kvs (by rw [hc, hc2]) (fun _ _ => rfl)
  · exact build_congr _ _ par_filter kvs2 kvs rfl (by rw [hc]; exact hv)

/-- The items "a;;b" against "a;": one pair named A, with an event that lacks `b` and
with an event that carries `b`. -/
theorem empty_entry_ignored_a_b :
    terminated ["a".toList] ++ ';' :: "b".toList = "a;;b".toList ∧
    terminated ["a".toList] = "a;".toList ∧
    build_metadata_items "a;".toList " ".toList (some event_a) =
      (true, [⟨"A".toList, "1".toList⟩]) ∧
    item_value (some event_a) "b".toList = none ∧
    considered_items "a;;b".toList = ["a".toList] ∧
    build_metadata_items "a;;b".toList " ".toList (some event_a) =
      build_metadata_items "a;".toList " ".toList (some event_a) ∧
    build_metadata_items "a;;b".toList " ".toList (some event_a_b) =
      build_metadata_items "a;;b".toList " ".toList (some event_a) :=
  ⟨by decide, by decide, by decide, by decide,
   (empty_entry_ignored ["a".toList] "b".toList " ".toList (some event_a)
      (some event_a_b) (by decide) (by decide) (by decide)).2⟩

theorem subscribe_effects (ax_event_handler_subscribe : List key_value → subscribe_result)
    (st : App) :
    metadata_event_subscribe ax_event_handler_subscribe st = (0, []) ∨
    ∃ key_value_set, metadata_event_subscribe ax_event_handler_subscribe st =
      (((ax_event_handler_subscribe key_value_set).subscription : Int),
        [Effect.subscribe key_value_set]) := by
  unfold metadata_event_subscribe
  by_cases ha : st.par_analytic = some " ".toList
  · rw [if_pos ha]
    exact Or.inl rfl
  · rw [if_neg ha]
    exact Or.inr ⟨_, rfl⟩

theorem guint_of_int_of_guint (n : Nat) :
    guint_of_int (int_of_guint ((n % 4294967296 : Nat) : Int)) =
      ((n % 4294967296 : Nat) : Int) := by
  unfold guint_of_int int_of_guint
  split_ifs <;> omega

theorem int_of_guint_of_int (i : Int) (h1 : -2147483648 ≤ i) (h2 : i < 2147483648) :
    int_of_guint (guint_of_int i) = i := by
  unfold guint_of_int int_of_guint
  split_ifs <;> omega

/-- After an unsubscribe of the stored id and what `metadata_event_subscribe` does, the
live subscriptions are none or the one with the returned id. -/
theorem resubscribe_live (ids : Nat → Nat) (b : AXEventHandler) (st st1 : App)
    (hinv : b.live = [] ∨ b.live = [guint_of_int st.event_subscription_id]) :
    ((Effect.unsubscribe (guint_of_int st.event_subscription_id) ::
        (metadata_event_subscribe (ax_event_handler_subscribe ids b) st1).2).foldl
          (AXEventHandler.step ids) b).live = [] ∨
    ((Effect.unsubscribe (guint_of_int st.event_subscription_id) ::
        (metadata_event_subscribe (ax_event_handler_subscribe ids b) st1).2).foldl
          (AXEventHandler.step ids) b).live =
      [guint_of_int
        (int_of_guint (metadata_event_subscribe (ax_event_handler_subscribe ids b) st1).1)] := by
  have hu : (b.live.filter (fun i => i ≠ guint_of_int st.event_subscription_id)) = [] := by
    rcases hinv with h | h <;> rw [h] <;> simp
  rcases subscribe_effects (ax_event_handler_subscribe ids b) st1 with h | ⟨k, h⟩
  · left
    rw [h]
    simp only [List.foldl_cons, List.foldl_nil, AXEventHandler.step, hu]
  · right
    rw [h]
    simp only [List.foldl_cons, List.foldl_nil, AXEventHandler.step, hu,
      ax_event_handler_subscribe, guint_of_int_of_guint]

theorem topic_change_apply_live (ids : Nat → Nat) (s : AXEventHandler × App)
    (c : topic_change)
    (hinv : s.1.live = [] ∨ s.1.live = [guint_of_int s.2.event_subscription_id]) :
    (topic_change.apply ids s c).1.live = [] ∨
    (topic_change.apply ids s c).1.live =
      [guint_of_int (topic_change.apply ids s c).2.event_subscription_id] := by
  cases c with
  | analytic value =>
    unfold topic_change.apply set_analytic
    by_cases hv : value ≠ s.2.par_analytic
    · simp only [if_pos hv]
      exact resubscribe_live ids s.1 s.2 _ hinv
    · simp only [if_neg hv, List.foldl_nil]
      exact hinv
  | category value =>
    unfold topic_change.apply set_category
    by_cases hv : value ≠ s.2.par_category
    · simp only [if_pos hv]
      exact resubscribe_live ids s.1 s.2 _ hinv
    · simp only [if_neg hv, List.foldl_nil]
      exact hinv

theorem topic_changes_live (ids : Nat → Nat) (changes : List topic_change) :
    ∀ s : AXEventHandler × App,
      (s.1.live = [] ∨ s.1.live = [guint_of_int s.2.event_subscription_id]) →
      ((changes.foldl (topic_change.apply ids) s).1.live = [] ∨
        (changes.foldl (topic_change.apply ids) s).1.live =
          [guint_of_int (changes.foldl (topic_change.apply ids) s).2.event_subscription_id]) := by
  induction changes with
  | nil => intro s h; exact h
  | cons c cs ih =>
    intro s h
    rw [List.foldl_cons]
    exact ih _ (topic_change_apply_live ids s c h)

theorem check_stores_message (buffer : Option CStr) :
    (check_jSON_response buffer none).2 ≠ none := by
  unfold check_jSON_response
  dsimp only
  split_ifs with h
  · simp
  · exact h

/-! ## The claims C21 to C30 -/

/-- C21, counterexample: with the items "plate;country;", the event of S2 (which carries
`plate` and lacks `country`) and the ready configuration of S1, the first entry resolves
and the second does not; `build_metadata_items` returns `FALSE` with the empty list, not
the list truncated to (Plate, ABC), and `metadata_event_callback` spawns no command: there
is no outbound JSON with the key `Plate`. -/
theorem unresolved_field_sends_no_keys :
    item_value (some event_S2) "plate".toList = some "ABC".toList ∧
    item_value (some event_S2) "country".toList = none ∧
    build_metadata_items "plate;country;".toList " ".toList (some event_S2) = (false, []) ∧
    metadata_event_callback (some tm_S1) (fun _ => none) (app_S1 " ".toList)
        (some ⟨some event_S2⟩) =
      some (app_S1 " ".toList, [Effect.event_free]) := by
  decide

/-- C21, as amended: for an items string in the documented form with fewer than
`MAX_ITEMS` names, the filter " ", a ready configuration and a time that `strftime`
formats: when every name resolves in the event, the pairs handed to `acs_run` have the
names title-cased, all of them and in order, and the data member of the JSON text in the
spawned command is one `item_string` per name in that order; when some name does not
resolve, `build_metadata_items` returns `FALSE` with the empty list and the callback
sends nothing (the list is not truncated). -/
theorem outbound_keys_all_or_nothing (t : tm) (transport : CStr → Option CStr) (st : App)
    (h : acs) (kvs : AXEventKeyValueSet) (names : List CStr)
    (hn : ∀ n ∈ names, n ≠ [] ∧ ';' ∉ n) (hlen : names.length < MAX_ITEMS)
    (hitems : st.par_items = some (terminated names))
    (hfilter : st.par_filter = some " ".toList)
    (hacs : st.acs = some h) (hready : is_initialized (some h) = true)
    (htime : (strftime_F_T t).length < 200) :
    ((∀ n ∈ names, item_value (some kvs) n ≠ none) →
      build_metadata_items (terminated names) " ".toList (some kvs) =
        (true, names.map (item_pair_of (some kvs))) ∧
      (names.map (item_pair_of (some kvs))).map (fun p => p.name) = names.map capitalize ∧
      (metadata_event_callback (some t) transport st (some ⟨some kvs⟩)).map Prod.snd =
        some [Effect.spawn_async (METABASE
            (jSON_head (strftime_F_T t) (h.source.getD []) ++
              (names.map (fun n =>
                item_string ⟨capitalize n, (item_value (some kvs) n).getD []⟩)).flatten ++
              "\x7d\x7d\x7d".toList)
            (h.ipname.getD []) (h.username.getD []) (h.password.getD [])),
          Effect.overlay_set_data (names.map (item_pair_of (some kvs))) 3000
            st.par_analytic st.par_category,
          Effect.event_free]) ∧
    ((∃ n ∈ names, item_value (some kvs) n = none) →
      build_metadata_items (terminated names) " ".toList (some kvs) = (false, []) ∧
      metadata_event_callback (some t) transport st (some ⟨some kvs⟩) =
        some (st, [Effect.event_free])) := by
  have hc := considered_items_terminated names hn hlen
  have hcb := metadata_event_callback_eq (some t) transport st kvs (terminated names)
    " ".toList hitems hfilter
  constructor
  · intro hres
    have hb : build_metadata_items (terminated names) " ".toList (some kvs) =
        (true, names.map (item_pair_of (some kvs))) := by
      rw [build_resolved (terminated names) " ".toList (some kvs) (by rw [hc]; exact hres),
        parse_filter_sentinel, hc]
      rfl
    refine ⟨hb, ?_, ?_⟩
    · simp [item_pair_of, Function.comp_def]
    · rw [hcb, hb, hacs, acs_run_async_eq t transport h _ hready htime]
      simp [acs_cmd, jSON_string, jSON_items, item_pair_of, Function.comp_def]
  · intro hex
    have hb : build_metadata_items (terminated names) " ".toList (some kvs) = (false, []) :=
      build_unresolved _ _ _ (by rw [hc]; exact hex)
    refine ⟨hb, ?_⟩
    rw [hcb, hb]
    rfl

/-- C21, witness: the items "plate;country;" with the event and the configuration of
S1. -/
theorem outbound_keys_all_or_nothing_witness :
    (metadata_event_callback (some tm_S1) (fun _ => none) (app_S1 " ".toList)
        (some ⟨some event_S1⟩)).map Prod.snd =
      some [Effect.spawn_async (METABASE
          (jSON_head (strftime_F_T tm_S1) "S".toList ++
            (item_string ⟨"Plate".toList, "ABC".toList⟩ ++
              item_string ⟨"Country".toList, "SE".toList⟩) ++
            "\x7d\x7d\x7d".toList)
          "10.0.0.1".toList "u".toList "p".toList),
        Effect.overlay_set_data items_S1 3000 (some "LPR".toList)
          (some "Uncategorized".toList),
        Effect.event_free] :=
  ((outbound_keys_all_or_nothing tm_S1 (fun _ => none) (app_S1 " ".toList) cfg_S1 event_S1
    ["plate".toList, "country".toList] (by decide) (by decide) rfl rfl rfl (by decide)
    (by decide)).1 (by decide)).2.2

/-- C22, the code at nineteen names a, ..., s, each followed by a semicolon, then an
empty entry and the entry `b`: the twentieth token of
`g_strsplit (par_items, ";", MAX_ITEMS)` is `;b`, not the empty entry, so the loop does
not leave there.  Without an event record 20 pairs are returned, the last one named `;b`,
where the nineteen names alone give 19 pairs; with an event record that carries every one
of the nineteen names the extraction fails, where over the nineteen names alone it
succeeds. -/
theorem empty_entry_after_19_names :
    names_a_s.length = 19 ∧
    terminated names_a_s ++ ';' :: "b".toList =
      "a;b;c;d;e;f;g;h;i;j;k;l;m;n;o;p;q;r;s;;b".toList ∧
    g_strsplit (terminated names_a_s ++ ';' :: "b".toList) ";".toList MAX_ITEMS =
      names_a_s ++ [";b".toList] ∧
    build_metadata_items (terminated names_a_s ++ ';' :: "b".toList) " ".toList none =
      (true, ["A", "B", "C", "D", "E", "F", "G", "H", "I", "J", "K", "L", "M", "N", "O", "P",
        "Q", "R", "S", ";b"].map (fun n => ⟨n.toList, "TEST".toList⟩)) ∧
    build_metadata_items (terminated names_a_s) " ".toList none =
      (true, ["A", "B", "C", "D", "E", "F", "G", "H", "I", "J", "K", "L", "M", "N", "O", "P",
        "Q", "R", "S"].map (fun n => ⟨n.toList, "TEST".toList⟩)) ∧
    (∀ n ∈ names_a_s, item_value (some event_a_t) n = some "x".toList) ∧
    build_metadata_items (terminated names_a_s ++ ';' :: "b".toList) " ".toList
      (some event_a_t) = (false, []) ∧
    (build_metadata_items (terminated names_a_s) " ".toList (some event_a_t)).1 = true := by
  decide

/-- C23, counterexample: for the analytic "LPR" and the category "Camera1Profile1" the
key/value set has topic0 in the namespace "tnsaxis", and topic1 and topic2 with the
namespace `NULL`. -/
theorem topic1_and_topic2_without_name_space :
    (metadata_event_subscribe subscribe_ok
        { app_S1 " ".toList with par_category := some "Camera1Profile1".toList }).2 =
      [Effect.subscribe
        [⟨"topic0".toList, some "tnsaxis".toList, some "CameraApplicationPlatform".toList⟩,
         ⟨"topic1".toList, none, some "LPR".toList⟩,
         ⟨"topic2".toList, none, some "Camera1Profile1".toList⟩]] ∧
    topic_name_space
        [⟨"topic0".toList, some "tnsaxis".toList, some "CameraApplicationPlatform".toList⟩,
         ⟨"topic1".toList, none, some "LPR".toList⟩,
         ⟨"topic2".toList, none, some "Camera1Profile1".toList⟩] "topic1".toList ≠
      some (some "tnsaxis".toList) ∧
    topic_name_space
        [⟨"topic0".toList, some "tnsaxis".toList, some "CameraApplicationPlatform".toList⟩,
         ⟨"topic1".toList, none, some "LPR".toList⟩,
         ⟨"topic2".toList, none, some "Camera1Profile1".toList⟩] "topic2".toList ≠
      some (some "tnsaxis".toList) := by
  decide

/-- C23, as amended: for an analytic other than " ", `metadata_event_subscribe` adds
topic0 in the namespace "tnsaxis" and adds topic1 and, when present, topic2 with the
namespace `NULL`; the set holds no other key. -/
theorem subscribe_name_spaces (ax_event_handler_subscribe : List key_value → subscribe_result)
    (st : App) (ha : st.par_analytic ≠ some " ".toList) :
    ∃ key_value_set : List key_value,
      (metadata_event_subscribe ax_event_handler_subscribe st).2 =
        [Effect.subscribe key_value_set] ∧
      topic_name_space key_value_set "topic0".toList = some (some "tnsaxis".toList) ∧
      topic_name_space key_value_set "topic1".toList = some none ∧
      (topic_name_space key_value_set "topic2".toList = some none ∨
        topic_name_space key_value_set "topic2".toList = none) ∧
      ∀ e ∈ key_value_set,
        (e.key = "topic0".toList ∧ e.name_space = some "tnsaxis".toList) ∨
        ((e.key = "topic1".toList ∨ e.key = "topic2".toList) ∧ e.name_space = none) := by
  unfold metadata_event_subscribe
  rw [if_neg ha]
  by_cases hcat : st.par_category ≠ some [] ∧ st.par_category ≠ some "Uncategorized".toList
  · rw [if_pos hcat]
    refine ⟨_, rfl, rfl, rfl, Or.inl rfl, ?_⟩
    intro e he
    simp only [List.cons_append, List.nil_append, List.mem_cons, List.mem_singleton,
      List.not_mem_nil, or_false] at he
    rcases he with h | h | h <;> subst h <;> simp
  · rw [if_neg hcat]
    refine ⟨_, rfl, rfl, rfl, Or.inr rfl, ?_⟩
    intro e he
    simp only [List.append_nil, List.mem_cons, List.mem_singleton,
      List.not_mem_nil, or_false] at he
    rcases he with h | h <;> subst h <;> simp

/-- C23, witness: the analytic "LPR" with the category "Camera1Profile1". -/
theorem subscribe_name_spaces_witness :
    ∃ key_value_set : List key_value,
      (metadata_event_subscribe subscribe_ok
          { app_S1 " ".toList with par_category := some "Camera1Profile1".toList }).2 =
        [Effect.subscribe key_value_set] ∧
      topic_name_space key_value_set "topic0".toList = some (some "tnsaxis".toList) ∧
      topic_name_space key_value_set "topic1".toList = some none ∧
      (topic_name_space key_value_set "topic2".toList = some none ∨
        topic_name_space key_value_set "topic2".toList = none) ∧
      ∀ e ∈ key_value_set,
        (e.key = "topic0".toList ∧ e.name_space = some "tnsaxis".toList) ∨
        ((e.key = "topic1".toList ∨ e.key = "topic2".toList) ∧ e.name_space = none) :=
  subscribe_name_spaces subscribe_ok
    { app_S1 " ".toList with par_category := some "Camera1Profile1".toList } (by decide)

/-- C24: against an event system that accepts every subscription, whatever ids it hands
out, after any sequence of calls of `set_analytic` and `set_category` from the initial
state the live subscriptions are none or exactly the one whose id `event_subscription_id`
stands for: the id is a `guint`, the variable an `int`, and the live id is the `guint`
that `ax_event_handler_unsubscribe` receives for the variable (for an `int` the conversion
to `guint` and back gives the `int` again).  A call with a new value first unsubscribes
the stored id and then requests at most one subscription; a call with the stored value
issues nothing.  For instance the analytic "LPR", then the category "Camera1Profile1",
then the analytic " ", with the ids 1, 2, ...: the second subscription alone is live after
two calls, none after the third.  With the id 4294967295 handed out, the variable holds
-1 and the next change unsubscribes 4294967295. -/
theorem at_most_one_live_subscription (ids : Nat → Nat) (changes : List topic_change) :
    ((run_topic_changes ids changes).1.live = [] ∨
      (run_topic_changes ids changes).1.live =
        [guint_of_int (run_topic_changes ids changes).2.event_subscription_id]) ∧
    (∀ i : Int, -2147483648 ≤ i → i < 2147483648 → int_of_guint (guint_of_int i) = i) ∧
    (∀ (sub : List key_value → subscribe_result) (st : App) (value : Option CStr),
      (set_analytic sub st value).2 =
        if value ≠ st.par_analytic then
          Effect.unsubscribe (guint_of_int st.event_subscription_id) ::
            (metadata_event_subscribe sub { st with par_analytic := value }).2
        else []) ∧
    (∀ (sub : List key_value → subscribe_result) (st : App) (value : Option CStr),
      (set_category sub st value).2 =
        if value ≠ st.par_category then
          Effect.unsubscribe (guint_of_int st.event_subscription_id) ::
            (metadata_event_subscribe sub { st with par_category := value }).2
        else []) ∧
    (∀ (sub : List key_value → subscribe_result) (st : App),
      (metadata_event_subscribe sub st).2 = [] ∨
        ∃ key_value_set, (metadata_event_subscribe sub st).2 =
          [Effect.subscribe key_value_set]) ∧
    (run_topic_changes (fun n => n + 1)
        [.analytic (some "LPR".toList), .category (some "Camera1Profile1".toList)]).1 =
      ⟨[2], 2⟩ ∧
    (run_topic_changes (fun n => n + 1)
        [.analytic (some "LPR".toList), .category (some "Camera1Profile1".toList)]
      ).2.event_subscription_id = 2 ∧
    (run_topic_changes (fun n => n + 1)
        [.analytic (some "LPR".toList), .category (some "Camera1Profile1".toList),
         .analytic (some " ".toList)]).1 = ⟨[], 2⟩ ∧
    (run_topic_changes (fun _ => 4294967295) [.analytic (some "LPR".toList)]).1 =
      ⟨[4294967295], 1⟩ ∧
    (run_topic_changes (fun _ => 4294967295)
      [.analytic (some "LPR".toList)]).2.event_subscription_id = -1 ∧
    (set_category (fun _ => ⟨true, 7⟩)
        (run_topic_changes (fun _ => 4294967295) [.analytic (some "LPR".toList)]).2
        (some "Camera1Profile1".toList)).2.head? = some (Effect.unsubscribe 4294967295) := by
  refine ⟨topic_changes_live ids changes _ (Or.inl rfl), int_of_guint_of_int, ?_, ?_, ?_,
    by decide, by decide, by decide, by decide, by decide, by decide⟩
  · intro sub st value
    unfold set_analytic
    split_ifs <;> rfl
  · intro sub st value
    unfold set_category
    split_ifs <;> rfl
  · intro sub st
    rcases subscribe_effects sub st with h | ⟨k, h⟩
    · left; rw [h]
    · right; exact ⟨k, by rw [h]⟩

/-- C25: each of `set_items`, `set_filter`, `set_server_address`, `set_source_id`,
`set_username`, `set_password` and `set_enabled`, for every state and every value, issues
no effect (no unsubscribe, no subscribe), leaves `event_subscription_id`, the analytic and
the category as they were, and changes only its own field: the items, the filter, or the
one field of the ACS handle (nothing when there is no handle). -/
theorem config_setters_never_resubscribe (st : App) (value : Option CStr) :
    (∀ f ∈ [set_items, set_filter, set_server_address, set_source_id, set_username,
        set_password, set_enabled],
      (f st value).2 = [] ∧
      (f st value).1.event_subscription_id = st.event_subscription_id ∧
      (f st value).1.par_analytic = st.par_analytic ∧
      (f st value).1.par_category = st.par_category ∧
      (f st value).1.par_debug_enabled = st.par_debug_enabled ∧
      (f st value).1.cur_metadata_items = st.cur_metadata_items) ∧
    (set_items st value).1 = { st with par_items := value } ∧
    (set_filter st value).1 = { st with par_filter := value } ∧
    (set_server_address st value).1 =
      { st with acs := st.acs.map (fun h => { h with ipname := value }) } ∧
    (set_source_id st value).1 =
      { st with acs := st.acs.map (fun h => { h with source := value }) } ∧
    (set_username st value).1 =
      { st with acs := st.acs.map (fun h => { h with username := value }) } ∧
    (set_password st value).1 =
      { st with acs := st.acs.map (fun h => { h with password := value }) } ∧
    (set_enabled st value).1 =
      { st with acs := st.acs.map (fun h => { h with enabled := value }) } := by
  refine ⟨?_, rfl, rfl, rfl, rfl, rfl, rfl, rfl⟩
  intro f hf
  simp only [List.mem_cons, List.mem_singleton, List.not_mem_nil, or_false] at hf
  rcases hf with h | h | h | h | h | h | h <;> subst h <;> exact ⟨rfl, rfl, rfl, rfl, rfl, rfl⟩

/-- C26: with no error location and a ready configuration, for every item list, every
time and every transport, `acs_run` returns `TRUE` and reports no error; its result is
the same for any two transports; and when `strftime` formats the time it spawns the
command once, without waiting for it. -/
theorem async_run_never_reports (now : Option tm) (transport transport2 : CStr → Option CStr)
    (h : acs) (metadata_items : List mdp_item_pair)
    (hready : is_initialized (some h) = true) :
    (acs_run now transport (some h) metadata_items none).ret = true ∧
    (acs_run now transport (some h) metadata_items none).error = none ∧
    acs_run now transport (some h) metadata_items none =
      acs_run now transport2 (some h) metadata_items none ∧
    (∀ t, now = some t → (strftime_F_T t).length < 200 →
      (acs_run now transport (some h) metadata_items none).effects =
        [Effect.spawn_async (acs_cmd h (strftime_F_T t) metadata_items)]) := by
  have hr : ¬ is_initialized (some h) = false := by rw [hready]; decide
  refine ⟨?_, ?_, ?_, ?_⟩
  · unfold acs_run
    rw [if_neg hr]
    cases now with
    | none => rfl
    | some t => dsimp only; split_ifs <;> rfl
  · unfold acs_run
    rw [if_neg hr]
    cases now with
    | none => rfl
    | some t => dsimp only; split_ifs <;> rfl
  · unfold acs_run
    rw [if_neg hr]
  · intro t hnow htime
    rw [hnow, acs_run_async_eq t transport h metadata_items hready htime]

/-- C26, witness: the configuration and the items of S1 with a transport whose spawn
fails and with one that answers status 401: the same result, `TRUE`. -/
theorem async_run_never_reports_witness :
    (acs_run (some tm_S1) (fun _ => none) (some cfg_S1) items_S1 none).ret = true ∧
    (acs_run (some tm_S1) (fun _ => none) (some cfg_S1) items_S1 none).error = none ∧
    acs_run (some tm_S1) (fun _ => none) (some cfg_S1) items_S1 none =
      acs_run (some tm_S1) transport_401 (some cfg_S1) items_S1 none ∧
    (acs_run (some tm_S1) (fun _ => none) (some cfg_S1) items_S1 none).effects =
      [Effect.spawn_async (acs_cmd cfg_S1 (strftime_F_T tm_S1) items_S1)] :=
  ⟨(async_run_never_reports (some tm_S1) (fun _ => none) transport_401 cfg_S1 items_S1
      (by decide)).1,
   (async_run_never_reports (some tm_S1) (fun _ => none) transport_401 cfg_S1 items_S1
      (by decide)).2.1,
   (async_run_never_reports (some tm_S1) (fun _ => none) transport_401 cfg_S1 items_S1
      (by decide)).2.2.1,
   (async_run_never_reports (some tm_S1) (fun _ => none) transport_401 cfg_S1 items_S1
      (by decide)).2.2.2 tm_S1 rfl (by decide)⟩

/-- C27: for a ready configuration, a time that `strftime` formats and every item list,
the JSON text in the command `acs_run` spawns, blocking or not, is the head with the
formatted time and the source id, then for each pair in list order the text
`"name":"value",` and then `\x7d\x7d\x7d`.  The name and the value of every pair stand in
that text as they are, and the text stands in the command line as it is, between the
single quotes after `--data`. -/
theorem envelope_text_verbatim (t : tm) (transport : CStr → Option CStr) (h : acs)
    (metadata_items : List mdp_item_pair) (source : CStr) (e : Option CStr)
    (hready : is_initialized (some h) = true) (hsrc : h.source = some source)
    (htime : (strftime_F_T t).length < 200) :
    (acs_run (some t) transport (some h) metadata_items none).effects =
      [Effect.spawn_async (METABASE
        (jSON_head (strftime_F_T t) source ++
          (metadata_items.map (fun p =>
            "\"".toList ++ p.name ++ "\":\"".toList ++ p.value ++ "\",".toList)).flatten ++
          "\x7d\x7d\x7d".toList)
        (h.ipname.getD []) (h.username.getD []) (h.password.getD []))] ∧
    (acs_run (some t) transport (some h) metadata_items (some e)).effects =
      [Effect.spawn_sync (METABASE
        (jSON_head (strftime_F_T t) source ++
          (metadata_items.map (fun p =>
            "\"".toList ++ p.name ++ "\":\"".toList ++ p.value ++ "\",".toList)).flatten ++
          "\x7d\x7d\x7d".toList)
        (h.ipname.getD []) (h.username.getD []) (h.password.getD []))] ∧
    (∀ json ipname username password : CStr,
      METABASE json ipname username password =
        "curl --insecure --anyauth -H \"Content-Type: application/json\" --data \x27".toList
          ++ json ++ ("\x27 -sw \x27HTTP:%\x7bhttp_code\x7d\x27 --max-time 2 https://".toList
          ++ ipname ++ "/Acs/Api/ExternalDataFacade/AddExternalData  --user \"".toList
          ++ username ++ ':' :: password ++ "\"".toList)) ∧
    (∀ p ∈ metadata_items, ∃ before after : CStr,
      jSON_string (strftime_F_T t) source metadata_items =
        before ++ ("\"".toList ++ p.name ++ "\":\"".toList ++ p.value ++ "\",".toList) ++
          after) ∧
    jSON_head (strftime_F_T t) source =
      "\x7b ".toList ++ List.replicate 12 ' ' ++ "\"addExternalDataRequest\": ".toList ++
        List.replicate 16 ' ' ++ "\x7b \"occurrenceTime\": \"".toList ++ strftime_F_T t ++
        "\",".toList ++ List.replicate 18 ' ' ++ "\"source\": \"".toList ++ source ++
        "\",".toList ++ List.replicate 18 ' ' ++ "\"externalDataType\": ".toList ++
        List.replicate 18 ' ' ++ "\"PointOfSales\", \"data\": \x7b".toList := by
  have hj : (metadata_items.map (fun p =>
      "\"".toList ++ p.name ++ "\":\"".toList ++ p.value ++ "\",".toList)).flatten =
      jSON_items metadata_items := by
    unfold jSON_items
    congr 1
  refine ⟨?_, ?_, ?_, ?_, rfl⟩
  · rw [acs_run_async_eq t transport h metadata_items hready htime, hj]
    simp only [acs_cmd, jSON_string, hsrc, Option.getD_some]
  · rw [acs_run_sync_eq t transport h metadata_items e hready htime, hj]
    simp only [acs_cmd, jSON_string, hsrc, Option.getD_some]
  · intro json ipname username password
    simp only [METABASE, List.append_assoc]
  · intro p hp
    obtain ⟨l1, l2, hl⟩ := List.append_of_mem hp
    refine ⟨jSON_head (strftime_F_T t) source ++ jSON_items l1,
      jSON_items l2 ++ "\x7d\x7d\x7d".toList, ?_⟩
    rw [hl]
    simp only [jSON_string, jSON_items, item_string, List.map_append, List.map_cons,
      List.flatten_append, List.flatten_cons, List.append_assoc, List.cons_append,
      List.nil_append, String.toList]

/-- C27, witness: the value `A"B\x27C` with the configuration of S1: the double quote and
the single quote stand in the command line as they are. -/
theorem envelope_text_verbatim_witness :
    (acs_run (some tm_S1) (fun _ => none) (some cfg_S1) items_quotes none).effects =
      [Effect.spawn_async (METABASE
        (jSON_head (strftime_F_T tm_S1) "S".toList ++
          (items_quotes.map (fun p =>
            "\"".toList ++ p.name ++ "\":\"".toList ++ p.value ++ "\",".toList)).flatten ++
          "\x7d\x7d\x7d".toList)
        "10.0.0.1".toList "u".toList "p".toList)] ∧
    (items_quotes.map (fun p =>
        "\"".toList ++ p.name ++ "\":\"".toList ++ p.value ++ "\",".toList)).flatten =
      "\"Plate\":\"A\"B\x27C\",".toList :=
  ⟨(envelope_text_verbatim tm_S1 (fun _ => none) cfg_S1 items_quotes "S".toList none
      (by decide) rfl (by decide)).1,
   by decide⟩

/-- C28: called with an error location that holds no message, `check_jSON_response`
leaves a message in it whatever the transport output is; for an output that ends with the
sentinel of status 200 it returns `TRUE` and the message is "Unknown Error".  So a
blocking `acs_run` with a ready configuration whose transport answers status 200 returns
`TRUE` with the text "Unknown Error" in the location, and `cgi_test_reporting` on that
same run answers "Success" with the error text "NA", not the text `acs_run` stored. -/
theorem success_stores_unknown_error (t : tm) (transport : CStr → Option CStr) (st : App)
    (h : acs) (par_items par_filter body : CStr) (metadata_items : List mdp_item_pair)
    (hacs : st.acs = some h) (hready : is_initialized (some h) = true)
    (htime : (strftime_F_T t).length < 200)
    (h1 : st.par_analytic ≠ some " ".toList) (h2 : st.par_category ≠ some " ".toList)
    (h3 : st.par_items = some par_items) (h3n : par_items ≠ " ".toList)
    (h5 : st.par_filter = some par_filter)
    (hx : build_metadata_items par_items par_filter none = (true, metadata_items))
    (hout : transport (acs_cmd h (strftime_F_T t) metadata_items) =
      some (body ++ ("HTTP:".toList ++ "200".toList))) :
    (∀ buffer, ∃ message, (check_jSON_response buffer none).2 = some message) ∧
    (∀ b : CStr, check_jSON_response (some (b ++ ("HTTP:".toList ++ "200".toList))) none =
      (true, some "Unknown Error".toList)) ∧
    acs_run (some t) transport (some h) metadata_items (some none) =
      ⟨true, some (some "Unknown Error".toList),
        [Effect.spawn_sync (acs_cmd h (strftime_F_T t) metadata_items)]⟩ ∧
    cgi_test_reporting (some t) transport st =
      some (send_xml (some "Success".toList) (some "NA".toList),
        [Effect.spawn_sync (acs_cmd h (strftime_F_T t) metadata_items)]) := by
  have hrun : acs_run (some t) transport (some h) metadata_items (some none) =
      ⟨true, some (some "Unknown Error".toList),
        [Effect.spawn_sync (acs_cmd h (strftime_F_T t) metadata_items)]⟩ := by
    rw [acs_run_sync_eq t transport h metadata_items none hready htime, hout,
      check_status body "200".toList none (by decide) (by decide)]
    rfl
  have h4 : acs_get_enabled st.acs = some "yes".toList := by
    rw [hacs]
    by_contra hne
    have : is_initialized (some h) = false :=
      (is_initialized_eq_false_iff h).2 (Or.inl hne)
    rw [hready] at this
    cases this
  refine ⟨?_, ?_, hrun, ?_⟩
  · intro buffer
    exact Option.ne_none_iff_exists'.1 (check_stores_message buffer)
  · intro b
    rw [check_status b "200".toList none (by decide) (by decide)]
    rfl
  · rw [cgi_test_reporting_eq (some t) transport st par_items par_filter h1 h2 h3 h3n h4 h5,
      hx, hacs, hrun]
    rfl

/-- C28, witness: the state of scenario S3 with a transport that answers status 200. -/
theorem success_stores_unknown_error_witness :
    acs_run (some tm_S1) transport_200 (some cfg_S1)
        [⟨"Plate".toList, "TEST".toList⟩, ⟨"Count".toList, "TEST".toList⟩] (some none) =
      ⟨true, some (some "Unknown Error".toList),
        [Effect.spawn_sync (acs_cmd cfg_S1 (strftime_F_T tm_S1)
          [⟨"Plate".toList, "TEST".toList⟩, ⟨"Count".toList, "TEST".toList⟩])]⟩ ∧
    cgi_test_reporting (some tm_S1) transport_200 app_S3 =
      some (send_xml (some "Success".toList) (some "NA".toList),
        [Effect.spawn_sync (acs_cmd cfg_S1 (strftime_F_T tm_S1)
          [⟨"Plate".toList, "TEST".toList⟩, ⟨"Count".toList, "TEST".toList⟩])]) :=
  (success_stores_unknown_error tm_S1 transport_200 app_S3 cfg_S1 "plate;count;".toList
    " ".toList [] [⟨"Plate".toList, "TEST".toList⟩, ⟨"Count".toList, "TEST".toList⟩]
    rfl (by decide) (by decide) (by decide) (by decide) rfl (by decide) rfl (by decide)
    rfl).2.2

/-- C29: with a content filter `k=v` (no `=` in `k`) whose key is not among the
considered entries of the items string, `build_metadata_items` returns `FALSE` with the
empty list for every event record and in synthetic mode, whether or not the record
carries `k` with the value `v`. -/
theorem filter_key_outside_items_never_matches (par_items k v : CStr)
    (kvs : Option AXEventKeyValueSet)
    (hk : '=' ∉ k) (hout : k ∉ considered_items par_items) :
    build_metadata_items par_items (k ++ '=' :: v) kvs = (false, []) := by
  rcases build_cases par_items (k ++ '=' :: v) kvs with h | ⟨_, hres⟩
  · exact h
  · rw [build_resolved par_items (k ++ '=' :: v) kvs hres, parse_filter_key_value k v hk]
    have hany : (considered_items par_items).any (fun e =>
        decide (some k = some e ∧ some v = item_value kvs e)) = false := by
      rw [List.any_eq_false]
      intro e he
      have hne : k ≠ e := fun heq => hout (heq ▸ he)
      simp [hne]
    simp only [hany, Bool.or_false, Bool.false_eq_true, if_false]

/-- C29, witness: the items "country;" with the filter "plate=ABC" and the event of S1,
which carries `plate` with the value `ABC`. -/
theorem filter_key_outside_items_never_matches_witness :
    item_value (some event_S1) "plate".toList = some "ABC".toList ∧
    build_metadata_items "country;".toList ("plate".toList ++ '=' :: "ABC".toList)
      (some event_S1) = (false, []) :=
  ⟨by decide,
   filter_key_outside_items_never_matches "country;".toList "plate".toList "ABC".toList
    (some event_S1) (by decide) (by decide)⟩

/-- C30, counterexample: with Enabled "no", an empty items string and the filter " ", the
extraction succeeds with the empty list; the callback hands the empty list to the
overlay, and the current-items snapshot, the item list of S1, stays: it is not replaced
with the empty list. -/
theorem empty_list_keeps_snapshot :
    build_metadata_items [] " ".toList (some event_S1) = (true, []) ∧
    app_S4_no_items.cur_metadata_items = items_S1 ∧
    metadata_event_callback (some tm_S1) (fun _ => none) app_S4_no_items
        (some ⟨some event_S1⟩) =
      some (app_S4_no_items,
        [Effect.overlay_set_data [] 3000 (some "LPR".toList) (some "Uncategorized".toList),
         Effect.event_free]) := by
  decide

/-- C30, as amended: with a handle whose Enabled is not "yes", `acs_run` returns `FALSE`
and spawns nothing.  A delivered event whose extraction succeeds then issues no command;
the callback still hands the item list to `overlay_set_data` with the time 3000, and it
replaces the current-items snapshot with the list when the list is not empty (an empty
list leaves the snapshot as it was).  When the extraction fails the callback only frees
the event and the state, the snapshot included, is as it was. -/
theorem disabled_still_feeds_overlay (now : Option tm) (transport : CStr → Option CStr)
    (st : App) (h : acs) (kvs : AXEventKeyValueSet) (par_items par_filter : CStr)
    (hacs : st.acs = some h) (hoff : h.enabled ≠ some "yes".toList)
    (hitems : st.par_items = some par_items) (hfilter : st.par_filter = some par_filter) :
    (∀ metadata_items error, acs_run now transport st.acs metadata_items error =
      ⟨false, error.map (fun _ => some "Missing config".toList), []⟩) ∧
    (∀ metadata_items,
      build_metadata_items par_items par_filter (some kvs) = (true, metadata_items) →
      metadata_event_callback now transport st (some ⟨some kvs⟩) =
        some (if metadata_items ≠ [] then { st with cur_metadata_items := metadata_items }
              else st,
          [Effect.overlay_set_data metadata_items 3000 st.par_analytic st.par_category,
           Effect.event_free])) ∧
    ((build_metadata_items par_items par_filter (some kvs)).1 = false →
      metadata_event_callback now transport st (some ⟨some kvs⟩) =
        some (st, [Effect.event_free])) := by
  have hinit : is_initialized (some h) = false :=
    (is_initialized_eq_false_iff h).2 (Or.inl hoff)
  have hrun : ∀ metadata_items error, acs_run now transport st.acs metadata_items error =
      ⟨false, error.map (fun _ => some "Missing config".toList), []⟩ := by
    intro metadata_items error
    unfold acs_run
    rw [hacs, if_pos hinit]
  have hcb := metadata_event_callback_eq now transport st kvs par_items par_filter hitems hfilter
  refine ⟨hrun, ?_, ?_⟩
  · intro metadata_items hb
    rw [hcb, hb, hrun]
    simp
  · intro hb
    rw [hcb, if_pos hb]

/-- C30, witness: scenario S4, the event of S1 with Enabled "no": no command, the overlay
gets (Plate, ABC), (Country, SE) and the snapshot becomes that list. -/
theorem disabled_still_feeds_overlay_witness :
    metadata_event_callback (some tm_S1) (fun _ => none) app_S4 (some ⟨some event_S1⟩) =
      some ({ app_S4 with cur_metadata_items := items_S1 },
        [Effect.overlay_set_data items_S1 3000 (some "LPR".toList)
          (some "Uncategorized".toList),
         Effect.event_free]) :=
  (disabled_still_feeds_overlay (some tm_S1) (fun _ => none) app_S4
    { cfg_S1 with enabled := some "no".toList } event_S1 "plate;country;".toList " ".toList
    rfl (by decide) rfl rfl).2.1 items_S1 (by decide)

end MetadataACS
